import Mathlib

/-!
# Remote resource store (`pkg/plugins/resources/remote/store.go`)

A shallow embedding of the HTTP-backed resource store: the five store operations
(`Create`, `Update`, `Get`, `List`, `Delete`), their shared `upsert` and `doRequest`
helpers, and the error values they return.

Conventions of the embedding.

* A Go `error` is a value of `GoError`; the `nil` error is `none`.
* A store operation is a function returning an `Outcome`: the returned error, the
  caller's resource (or resource list) as it is after the call, and the requests
  that were handed to the transport's `Do`, in order.
* The Go standard library (`net/url` parsing, `encoding/json`, header key
  canonicalisation) and the packages of the repository the store imports are
  parameters of the embedding (`Lib`, `remoteStore`) or are modelled from the
  specification; each such definition says so.
* The `context.Context` argument only travels with the request and is not modelled.
* A `[]byte` body is a `String`; the `nil` slice is the empty string, which is how
  `string(b)` renders it.
-/

set_option autoImplicit false
set_option maxRecDepth 8192

namespace Kuma

/-! ## Error values -/

/-- Cause of a structured API error: `types.Cause`, a field and a message. -/
structure types.Cause where
  Field : String
  Message : String
deriving DecidableEq

/-- Structured API error `types.Error` with its wire fields `title`, `details`, `causes`. -/
structure types.Error where
  Title : String
  Details : String
  Causes : List types.Cause
deriving DecidableEq

/-- Go error values that flow through the store.

* `external msg`: an error made outside the store (transport, body read, JSON
  marshalling, URL parsing, descriptor lookup, response unmarshalling);
* `Errorf msg`: `errors.Errorf(...)` with the rendered message `msg`;
* `Wrapf cause format arg`: `errors.Wrapf(cause, format, arg)`, kept unrendered;
* `ResourceNotFound rt name mesh`: `store.ErrorResourceNotFound(rt, name, mesh)`;
* `Kuma e`: a pointer to the structured error `e` (`&kumaErr`). -/
inductive GoError where
  | external (msg : String)
  | Errorf (msg : String)
  | Wrapf (cause : GoError) (format : String) (arg : String)
  | ResourceNotFound (rt : String) (name : String) (mesh : String)
  | Kuma (e : types.Error)
deriving DecidableEq

/-- Modelled from the spec: `store.ErrorResourceNotFound` (package
`pkg/core/resources/store`), the distinguished not-found error carrying
type, name and mesh. -/
def store.ErrorResourceNotFound (rt name mesh : String) : GoError :=
  GoError.ResourceNotFound rt name mesh

/-- Modelled from the spec: `store.IsResourceNotFound`, the predicate that
recognises the not-found error kind. -/
def store.IsResourceNotFound : Option GoError → Bool
  | some (GoError.ResourceNotFound _ _ _) => true
  | _ => false

/-! ## Resource model -/

/-- Resource type tag (`model.ResourceType`, a string). -/
abbrev model.ResourceType := String

/-- Modelled from the spec: the `Meta` of a resource, `{Name, Mesh, Version}`,
as read through `GetName`, `GetMesh`, `GetVersion`. -/
structure model.ResourceMeta where
  Name : String
  Mesh : String
  Version : String
deriving DecidableEq

/-- Modelled from the spec: `remoteMeta{Name, Mesh, Version}`, the meta value the
store stamps on a resource (declared elsewhere in package `remote`). -/
def remoteMeta (Name Mesh Version : String) : model.ResourceMeta :=
  ⟨Name, Mesh, Version⟩

/-- Modelled from the spec: a `model.Resource`, read through `GetType`, `GetMeta`,
`GetSpec` and written through `SetMeta`. The payload type `σ` is arbitrary. -/
structure model.Resource (σ : Type) where
  Type_ : model.ResourceType
  Meta : model.ResourceMeta
  Spec : σ
deriving DecidableEq

/-- Modelled from the spec: a `model.ResourceList`, items in server order plus the
type tag of its items (`GetItemType`). -/
structure model.ResourceList (σ : Type) where
  ItemType : model.ResourceType
  Items : List (model.Resource σ)
deriving DecidableEq

/-- Envelope meta `rest.ResourceMeta{Type, Name, Mesh}` sent on the wire. -/
structure rest.ResourceMeta where
  Type_ : String
  Name : String
  Mesh : String
deriving DecidableEq

/-- Envelope `rest.Resource{Meta, Spec}` that is marshalled into the request body. -/
structure rest.Resource (σ : Type) where
  Meta : rest.ResourceMeta
  Spec : σ
deriving DecidableEq

/-! ## API descriptor -/

/-- Interface `rest.ResourceApi`: renders the item and collection URLs of one
resource type. -/
structure rest.ResourceApi where
  Item : String → String → String
  List : String → String

/-- Interface `rest.Api`: resolves a resource type to its `ResourceApi`, or fails. -/
structure rest.Api where
  GetResourceApi : model.ResourceType → Except GoError rest.ResourceApi

/-- Modelled from the spec: `rest.NewResourceApi(type, collection)`. The mesh kind
itself is global (`/{collection}` and `/{collection}/{name}`); every other kind
nests under its mesh (`/meshes/{mesh}/{collection}` and
`/meshes/{mesh}/{collection}/{name}`). -/
def rest.NewResourceApi (resourceType : model.ResourceType) (path : String) :
    rest.ResourceApi :=
  if resourceType = "Mesh" then
    { Item := fun _ name => "/" ++ path ++ "/" ++ name
      List := fun _ => "/" ++ path }
  else
    { Item := fun mesh name => "/meshes/" ++ mesh ++ "/" ++ path ++ "/" ++ name
      List := fun mesh => "/meshes/" ++ mesh ++ "/" ++ path }

/-- Modelled from the spec: `rest.ApiDescriptor`, a mapping from resource type to
`ResourceApi`; a type without an entry is an error. -/
def rest.ApiDescriptor (Resources : List (model.ResourceType × rest.ResourceApi)) :
    rest.Api :=
  { GetResourceApi := fun rt =>
      match Resources.lookup rt with
      | some a => Except.ok a
      | none => Except.error (GoError.external ("unknown resource type: " ++ rt)) }

/-! ## Call options -/

/-- Modelled from the spec: `store.CreateOptions`, target name and mesh. -/
structure store.CreateOptions where
  Name : String
  Mesh : String
deriving DecidableEq

/-- Functional modifier of `CreateOptions`. -/
abbrev store.CreateOptionsFunc := store.CreateOptions → store.CreateOptions

/-- Modelled from the spec: the modifiers applied in order to the zero value. -/
def store.NewCreateOptions (fs : List store.CreateOptionsFunc) : store.CreateOptions :=
  fs.foldl (fun opts f => f opts) ⟨"", ""⟩

/-- Modelled from the spec: `store.CreateByKey(name, mesh)`. -/
def store.CreateByKey (name mesh : String) : store.CreateOptionsFunc :=
  fun opts => { opts with Name := name, Mesh := mesh }

/-- Modelled from the spec: `store.UpdateOptions`, which carries nothing. -/
structure store.UpdateOptions where
deriving DecidableEq

/-- Functional modifier of `UpdateOptions`. -/
abbrev store.UpdateOptionsFunc := store.UpdateOptions → store.UpdateOptions

/-- Modelled from the spec: the modifiers applied in order to the zero value. -/
def store.NewUpdateOptions (fs : List store.UpdateOptionsFunc) : store.UpdateOptions :=
  fs.foldl (fun opts f => f opts) ⟨⟩

/-- Modelled from the spec: `store.DeleteOptions`, target name and mesh. -/
structure store.DeleteOptions where
  Name : String
  Mesh : String
deriving DecidableEq

/-- Functional modifier of `DeleteOptions`. -/
abbrev store.DeleteOptionsFunc := store.DeleteOptions → store.DeleteOptions

/-- Modelled from the spec: the modifiers applied in order to the zero value. -/
def store.NewDeleteOptions (fs : List store.DeleteOptionsFunc) : store.DeleteOptions :=
  fs.foldl (fun opts f => f opts) ⟨"", ""⟩

/-- Modelled from the spec: `store.DeleteByKey(name, mesh)`. -/
def store.DeleteByKey (name mesh : String) : store.DeleteOptionsFunc :=
  fun opts => { opts with Name := name, Mesh := mesh }

/-- Modelled from the spec: `store.GetOptions`, target name and mesh. -/
structure store.GetOptions where
  Name : String
  Mesh : String
deriving DecidableEq

/-- Functional modifier of `GetOptions`. -/
abbrev store.GetOptionsFunc := store.GetOptions → store.GetOptions

/-- Modelled from the spec: the modifiers applied in order to the zero value. -/
def store.NewGetOptions (fs : List store.GetOptionsFunc) : store.GetOptions :=
  fs.foldl (fun opts f => f opts) ⟨"", ""⟩

/-- Modelled from the spec: `store.GetByKey(name, mesh)`. -/
def store.GetByKey (name mesh : String) : store.GetOptionsFunc :=
  fun opts => { opts with Name := name, Mesh := mesh }

/-- Modelled from the spec: `store.ListOptions`; page size `0` and the empty
offset mean "unset". -/
structure store.ListOptions where
  Mesh : String
  PageSize : Int
  PageOffset : String
deriving DecidableEq

/-- Functional modifier of `ListOptions`. -/
abbrev store.ListOptionsFunc := store.ListOptions → store.ListOptions

/-- Modelled from the spec: the modifiers applied in order to the zero value. -/
def store.NewListOptions (fs : List store.ListOptionsFunc) : store.ListOptions :=
  fs.foldl (fun opts f => f opts) ⟨"", 0, ""⟩

/-- Modelled from the spec: `store.ListByMesh(mesh)`. -/
def store.ListByMesh (mesh : String) : store.ListOptionsFunc :=
  fun opts => { opts with Mesh := mesh }

/-- Modelled from the spec: `store.ListByPage(size, offset)`. -/
def store.ListByPage (size : Int) (offset : String) : store.ListOptionsFunc :=
  fun opts => { opts with PageSize := size, PageOffset := offset }

/-! ## HTTP requests and responses -/

/-- Query values `url.Values`: a map from key to the values added under it, kept
as an association list with one entry per key. -/
abbrev url.Values := List (String × List String)

/-- Go `Values.Add(key, value)`: appends `value` to the values stored under `key`. -/
def url.Values.Add : url.Values → String → String → url.Values
  | [], key, value => [(key, [value])]
  | (k, vs) :: rest, key, value =>
    if k = key then (k, vs ++ [value]) :: rest
    else (k, vs) :: url.Values.Add rest key value

/-- Values stored under `key` (the Go map index `v[key]`); none gives the empty list. -/
def url.Values.lookup (v : url.Values) (key : String) : List String :=
  (List.lookup key v).getD []

/-- Go `Values.Get(key)`: the first value stored under `key`, or the empty string. -/
def url.Values.Get (v : url.Values) (key : String) : String :=
  (url.Values.lookup v key).headD ""

/-- Go `Values.Has(key)`: whether `key` is present in the map. -/
def url.Values.Has (v : url.Values) (key : String) : Bool :=
  (List.lookup key v).isSome

/-- Upper-case hexadecimal digit of a number below sixteen. -/
def url.upperhex (n : Nat) : Char :=
  if n < 10 then Char.ofNat (48 + n) else Char.ofNat (55 + n)

/-- Whether `url.QueryEscape` leaves a byte as it is: ASCII letters, digits and
the four marks `-`, `_`, `.`, `~`. -/
def url.unreservedByte (b : Nat) : Bool :=
  (48 ≤ b && b ≤ 57) || (65 ≤ b && b ≤ 90) || (97 ≤ b && b ≤ 122) ||
    b = 45 || b = 95 || b = 46 || b = 126

/-- Escaping of one byte by `url.QueryEscape`. -/
def url.escapeByte (b : Nat) : List Char :=
  if b = 32 then ['+']
  else if url.unreservedByte b then [Char.ofNat b]
  else ['%', url.upperhex (b / 16), url.upperhex (b % 16)]

/-- The UTF-8 bytes of a string, as Go sees it. -/
def url.bytesOf (s : String) : List Nat :=
  s.data.flatMap fun c => (String.utf8EncodeChar c).map fun b => b.toNat

/-- Go `url.QueryEscape`: percent-encoding of the UTF-8 bytes of a string for use
in a query component. -/
def url.QueryEscape (s : String) : String :=
  String.mk ((url.bytesOf s).flatMap url.escapeByte)

/-- Lexicographic order on byte sequences. -/
def url.lexLt : List Nat → List Nat → Bool
  | _, [] => false
  | [], _ :: _ => true
  | a :: as, b :: bs => a < b || (a = b && url.lexLt as bs)

/-- Go string comparison `a < b`: bytewise lexicographic. -/
def url.stringLess (a b : String) : Bool :=
  url.lexLt (url.bytesOf a) (url.bytesOf b)

/-- Insertion of an entry into a list of entries sorted by key. -/
def url.insertByKey (e : String × List String) : url.Values → url.Values
  | [] => [e]
  | x :: rest =>
    if url.stringLess e.1 x.1 then e :: x :: rest else x :: url.insertByKey e rest

/-- Entries sorted by key. -/
def url.sortByKey : url.Values → url.Values
  | [] => []
  | e :: rest => url.insertByKey e (url.sortByKey rest)

/-- Go `Values.Encode()`: the `key=value` pairs, escaped, joined by `&`, the keys
in sorted order and the values of one key in the order they were added. -/
def url.Values.Encode (v : url.Values) : String :=
  "&".intercalate ((url.sortByKey v).flatMap fun e =>
    e.2.map fun x => url.QueryEscape e.1 ++ "=" ++ url.QueryEscape x)

/-- Parsed request URL `url.URL`, the two components the store touches. -/
structure url.URL where
  Path : String
  RawQuery : String
deriving DecidableEq

/-- Header map `http.Header`: canonical key to values. -/
abbrev http.Header := List (String × List String)

/-- An `http.Request` as built by `http.NewRequest`: method, URL, headers and the
body bytes (`none` for a `nil` body). -/
structure http.Request where
  Method : String
  URL : url.URL
  Header : http.Header
  Body : Option String
deriving DecidableEq

/-- An `http.Response` as the store reads it: the status code and the outcome of
`ioutil.ReadAll(resp.Body)`. -/
structure http.Response where
  StatusCode : Int
  Body : Except GoError String

/-- Interface `util_http.Client`: `Do(req)` gives a response or an error. Within one
store call `Do` is consulted at most once, so a function of the request suffices. -/
structure util_http.Client where
  Do : http.Request → Except GoError http.Response

/-- Library functions the store calls and that live outside of `store.go`.

* `urlParse`: `net/url` parsing of the URL string inside `http.NewRequest`;
* `ParseQuery`: `url.ParseQuery` on a non-empty raw query (errors dropped, as
  `URL.Query()` drops them);
* `CanonicalMIMEHeaderKey`: the key canonicalisation of `Header.Set`;
* `jsonMarshal`: `json.Marshal(&restRes)`;
* `jsonUnmarshalError`: `json.Unmarshal(b, &kumaErr)` into an empty `types.Error`,
  `none` when it returns an error;
* `Unmarshal`, `UnmarshalList`: the response decoders of package `remote`, which
  fill the resource (list) in place and return an error or `nil`. -/
structure Lib (σ : Type) where
  urlParse : String → Except GoError url.URL
  ParseQuery : String → url.Values
  CanonicalMIMEHeaderKey : String → String
  jsonMarshal : rest.Resource σ → Except GoError String
  jsonUnmarshalError : String → Option types.Error
  Unmarshal : String → model.Resource σ → model.Resource σ × Option GoError
  UnmarshalList : String → model.ResourceList σ → model.ResourceList σ × Option GoError

/-- Go `URL.Query()`: the parsed raw query; an empty raw query has no values. -/
def url.URL.Query {σ : Type} (lib : Lib σ) (u : url.URL) : url.Values :=
  if u.RawQuery = "" then [] else lib.ParseQuery u.RawQuery

/-- Go `Header.Set(key, value)`: the canonical key is mapped to the single value. -/
def http.Header.Set {σ : Type} (lib : Lib σ) (h : http.Header) (key value : String) :
    http.Header :=
  let k := lib.CanonicalMIMEHeaderKey key
  (k, [value]) :: h.filter fun e => e.1 != k

/-- Go `http.NewRequest(method, url, body)` for the three method constants the
store uses (all valid methods): the URL is parsed, a parse error is returned,
and otherwise a request with no headers is built. -/
def http.NewRequest {σ : Type} (lib : Lib σ) (method url : String) (body : Option String) :
    Except GoError http.Request :=
  match lib.urlParse url with
  | Except.error err => Except.error err
  | Except.ok u => Except.ok { Method := method, URL := u, Header := [], Body := body }

/-! ## The remote store -/

/-- The store `remoteStore{client, api}`. -/
structure remoteStore where
  client : util_http.Client
  api : rest.Api

/-- Constructor `NewStore(client, api)`. -/
def NewStore (client : util_http.Client) (api : rest.Api) : remoteStore :=
  { client := client, api := api }

/-- What `doRequest` returns, `(statusCode, body, error)`, together with the
requests it handed to the transport. -/
structure DoResult where
  statusCode : Int
  b : String
  err : Option GoError
  sent : List http.Request

/-- What a store operation leaves behind: the returned error (`none` for `nil`),
the caller's resource or list after the call, and the requests handed to the
transport's `Do`, in order. -/
structure Outcome (ρ : Type) where
  err : Option GoError
  res : ρ
  sent : List http.Request

/-- Method `remoteStore.doRequest`: execute a request; returns status code, body, error. -/
def remoteStore.doRequest {σ : Type} (s : remoteStore) (lib : Lib σ) (req : http.Request) :
    DoResult :=
  let req := { req with Header := http.Header.Set lib req.Header "Accept" "application/json" }
  match s.client.Do req with
  | Except.error err => ⟨0, "", some err, [req]⟩
  | Except.ok resp =>
    match resp.Body with
    | Except.error err => ⟨resp.StatusCode, "", some err, [req]⟩
    | Except.ok b =>
      if Int.tdiv resp.StatusCode 100 ≥ 4 then
        match lib.jsonUnmarshalError b with
        | some kumaErr =>
          if kumaErr.Title ≠ "" ∧ kumaErr.Details ≠ "" then
            ⟨resp.StatusCode, b, some (GoError.Kuma kumaErr), [req]⟩
          else ⟨resp.StatusCode, b, none, [req]⟩
        | none => ⟨resp.StatusCode, b, none, [req]⟩
      else ⟨resp.StatusCode, b, none, [req]⟩

/-- Rendering of `errors.Errorf("(%d): %s", statusCode, string(b))`. -/
def statusError (statusCode : Int) (b : String) : GoError :=
  GoError.Errorf ("(" ++ toString statusCode ++ "): " ++ b)

/-- Method `remoteStore.upsert`, shared by `Create` and `Update`. -/
def remoteStore.upsert {σ : Type} (s : remoteStore) (lib : Lib σ) (res : model.Resource σ)
    (meta : rest.ResourceMeta) : Outcome (model.Resource σ) :=
  match s.api.GetResourceApi res.Type_ with
  | Except.error err =>
    ⟨some (GoError.Wrapf err "failed to construct URI to update a %q" res.Type_), res, []⟩
  | Except.ok resourceApi =>
    let restRes : rest.Resource σ := { Meta := meta, Spec := res.Spec }
    match lib.jsonMarshal restRes with
    | Except.error err => ⟨some err, res, []⟩
    | Except.ok b =>
      match http.NewRequest lib "PUT" (resourceApi.Item meta.Mesh meta.Name) (some b) with
      | Except.error err => ⟨some err, res, []⟩
      | Except.ok req =>
        let req := { req with
          Header := http.Header.Set lib req.Header "content-type" "application/json" }
        let r := s.doRequest lib req
        match r.err with
        | some err => ⟨some err, res, r.sent⟩
        | none =>
          if r.statusCode ≠ 200 ∧ r.statusCode ≠ 201 then
            ⟨some (statusError r.statusCode r.b), res, r.sent⟩
          else
            ⟨none, { res with Meta := remoteMeta meta.Name meta.Mesh "" }, r.sent⟩

/-- Method `remoteStore.Create`. -/
def remoteStore.Create {σ : Type} (s : remoteStore) (lib : Lib σ) (res : model.Resource σ)
    (fs : List store.CreateOptionsFunc) : Outcome (model.Resource σ) :=
  let opts := store.NewCreateOptions fs
  let meta : rest.ResourceMeta := { Type_ := res.Type_, Name := opts.Name, Mesh := opts.Mesh }
  s.upsert lib res meta

/-- Method `remoteStore.Update`. -/
def remoteStore.Update {σ : Type} (s : remoteStore) (lib : Lib σ) (res : model.Resource σ)
    (fs : List store.UpdateOptionsFunc) : Outcome (model.Resource σ) :=
  let _ := store.NewUpdateOptions fs
  let meta : rest.ResourceMeta :=
    { Type_ := res.Type_, Name := res.Meta.Name, Mesh := res.Meta.Mesh }
  s.upsert lib res meta

/-- Method `remoteStore.Delete`. -/
def remoteStore.Delete {σ : Type} (s : remoteStore) (lib : Lib σ) (res : model.Resource σ)
    (fs : List store.DeleteOptionsFunc) : Outcome (model.Resource σ) :=
  let opts := store.NewDeleteOptions fs
  match s.api.GetResourceApi res.Type_ with
  | Except.error err =>
    ⟨some (GoError.Wrapf err "failed to construct URI to delete a %q" res.Type_), res, []⟩
  | Except.ok resourceApi =>
    match http.NewRequest lib "DELETE" (resourceApi.Item opts.Mesh opts.Name) none with
    | Except.error err => ⟨some err, res, []⟩
    | Except.ok req =>
      let r := s.doRequest lib req
      match r.err with
      | some err =>
        if r.statusCode = 404 then
          ⟨some (store.ErrorResourceNotFound res.Type_ opts.Name opts.Mesh), res, r.sent⟩
        else ⟨some err, res, r.sent⟩
      | none =>
        if r.statusCode ≠ 200 then ⟨some (statusError r.statusCode r.b), res, r.sent⟩
        else ⟨none, res, r.sent⟩

/-- Method `remoteStore.Get`. -/
def remoteStore.Get {σ : Type} (s : remoteStore) (lib : Lib σ) (res : model.Resource σ)
    (fs : List store.GetOptionsFunc) : Outcome (model.Resource σ) :=
  match s.api.GetResourceApi res.Type_ with
  | Except.error err =>
    ⟨some (GoError.Wrapf err "failed to construct URI to fetch a %q" res.Type_), res, []⟩
  | Except.ok resourceApi =>
    let opts := store.NewGetOptions fs
    match http.NewRequest lib "GET" (resourceApi.Item opts.Mesh opts.Name) none with
    | Except.error err => ⟨some err, res, []⟩
    | Except.ok req =>
      let r := s.doRequest lib req
      match r.err with
      | some err =>
        if r.statusCode = 404 then
          ⟨some (store.ErrorResourceNotFound res.Type_ opts.Name opts.Mesh), res, r.sent⟩
        else ⟨some err, res, r.sent⟩
      | none =>
        if r.statusCode ≠ 200 then ⟨some (statusError r.statusCode r.b), res, r.sent⟩
        else
          let u := lib.Unmarshal r.b res
          ⟨u.2, u.1, r.sent⟩

/-- The query the `List` method puts on its request: the query of the request URL
with `offset` added when the page offset is set and `size` added when the page
size is set. -/
def listQuery {σ : Type} (lib : Lib σ) (u : url.URL) (opts : store.ListOptions) :
    url.Values :=
  let query := url.URL.Query lib u
  let query := if opts.PageOffset ≠ "" then url.Values.Add query "offset" opts.PageOffset
    else query
  let query := if opts.PageSize ≠ 0 then url.Values.Add query "size" (toString opts.PageSize)
    else query
  query

/-- Method `remoteStore.List`. -/
def remoteStore.List {σ : Type} (s : remoteStore) (lib : Lib σ) (rs : model.ResourceList σ)
    (fs : List store.ListOptionsFunc) : Outcome (model.ResourceList σ) :=
  match s.api.GetResourceApi rs.ItemType with
  | Except.error err =>
    ⟨some (GoError.Wrapf err "failed to construct URI to fetch a list of %q" rs.ItemType),
      rs, []⟩
  | Except.ok resourceApi =>
    let opts := store.NewListOptions fs
    match http.NewRequest lib "GET" (resourceApi.List opts.Mesh) none with
    | Except.error err => ⟨some err, rs, []⟩
    | Except.ok req =>
      let query := listQuery lib req.URL opts
      let req := { req with URL := { req.URL with RawQuery := url.Values.Encode query } }
      let r := s.doRequest lib req
      match r.err with
      | some err => ⟨some err, rs, r.sent⟩
      | none =>
        if r.statusCode ≠ 200 then ⟨some (statusError r.statusCode r.b), rs, r.sent⟩
        else
          let u := lib.UnmarshalList r.b rs
          ⟨u.2, u.1, r.sent⟩

/-! ## Test doubles of `store_test.go` -/

/-- The descriptor both store set-ups of the test suite use: traffic routes under
the collection `traffic-routes`, meshes under `meshes`. -/
def testApis : rest.Api :=
  rest.ApiDescriptor
    [("SampleTrafficRoute", rest.NewResourceApi "SampleTrafficRoute" "traffic-routes"),
     ("Mesh", rest.NewResourceApi "Mesh" "meshes")]

/-- The store of `setupErrorStore(code, errorMsg)`: every request is answered with
status `code` and body `errorMsg`. -/
def setupErrorStore (code : Int) (errorMsg : String) : remoteStore :=
  NewStore { Do := fun _ => Except.ok { StatusCode := code, Body := Except.ok errorMsg } }
    testApis

/-- A store whose transport answers every request with status 200 and the given
body, as `setupStore` does with the content of a test file. -/
def setupStore (content : String) : remoteStore :=
  NewStore { Do := fun _ => Except.ok { StatusCode := 200, Body := Except.ok content } }
    testApis

/-- A store whose transport fails every request with the given error. -/
def setupFailingStore (err : GoError) : remoteStore :=
  NewStore { Do := fun _ => Except.error err } testApis

/-- A store whose transport answers every request with status `code` and a body
whose reading fails with the given error. -/
def setupBrokenBodyStore (code : Int) (err : GoError) : remoteStore :=
  NewStore { Do := fun _ => Except.ok { StatusCode := code, Body := Except.error err } }
    testApis

/-- Whether a URL string is a plain path: only letters, digits, `/`, `-`, `_`, `.`. -/
def plainPath (s : String) : Bool :=
  s.data.all fun c => c.isAlphanum || c = '/' || c = '-' || c = '_' || c = '.'

/-- The JSON text of the structured not-found error of the test suite. -/
def notFoundJson : String :=
  "\x7b\"title\": \"Could not get a resource\", \"details\": \"Not found\"\x7d"

/-- The JSON text of the structured validation error of the test suite. -/
def invalidJson : String :=
  "\x7b\"title\": \"Could not process resource\", \"details\": \"Resource is not valid\", " ++
  "\"causes\": [\x7b\"field\": \"mtls\", \"message\": \"cannot be empty\"\x7d, " ++
  "\x7b\"field\": \"mesh\", \"message\": \"cannot be empty\"\x7d]\x7d"

/-- The structured error that `notFoundJson` decodes to. -/
def notFoundError : types.Error :=
  { Title := "Could not get a resource", Details := "Not found", Causes := [] }

/-- The structured error that `invalidJson` decodes to, its causes in wire order. -/
def invalidError : types.Error :=
  { Title := "Could not process resource", Details := "Resource is not valid",
    Causes := [⟨"mtls", "cannot be empty"⟩, ⟨"mesh", "cannot be empty"⟩] }

/-- A library instance for the inputs of the test suite: plain paths parse to
themselves with an empty query (anything else is refused), header keys are
already canonical, the two JSON error texts above decode to their structured
errors and no other body does, and a resource is marshalled to a line of text. -/
def testLib : Lib String where
  urlParse := fun s =>
    if plainPath s then Except.ok { Path := s, RawQuery := "" }
    else Except.error (GoError.external "parse: unsupported URL")
  ParseQuery := fun _ => []
  CanonicalMIMEHeaderKey := fun k => if k = "content-type" then "Content-Type" else k
  jsonMarshal := fun r =>
    Except.ok (r.Meta.Type_ ++ " " ++ r.Meta.Mesh ++ " " ++ r.Meta.Name ++ " " ++ r.Spec)
  jsonUnmarshalError := fun b =>
    if b = notFoundJson then some notFoundError
    else if b = invalidJson then some invalidError
    else none
  Unmarshal := fun b res => ({ res with Spec := b }, none)
  UnmarshalList := fun _ rs => (rs, none)

/-- Splitting of a character sequence at every `&`. -/
def splitPairs : List Char → List (List Char)
  | [] => [[]]
  | c :: cs =>
    if c = '&' then [] :: splitPairs cs
    else
      match splitPairs cs with
      | [] => [[c]]
      | p :: ps => (c :: p) :: ps

/-- Go `url.ParseQuery` on raw queries made of plain characters (no `%`, `+` or
`;`): the pairs are separated by `&`, empty pairs are skipped, a pair is cut at
its first `=`, and the value is appended to the values of its key. -/
def plainParseQuery (raw : String) : url.Values :=
  (splitPairs raw.data).foldl
    (fun m pair =>
      if pair = [] then m
      else url.Values.Add m (String.mk (pair.takeWhile fun c => c != '='))
        (String.mk ((pair.dropWhile fun c => c != '=').drop 1)))
    []

/-- Whether a raw query is made of plain characters: letters, digits, `/`, `-`, `_`,
`.`, `=` and `&`. -/
def plainQuery (s : String) : Bool :=
  s.data.all fun c =>
    c.isAlphanum || c = '/' || c = '-' || c = '_' || c = '.' || c = '=' || c = '&'

/-- A library instance for URL strings `path` or `path?query` made of plain
characters: the string is cut at its first `?` into path and raw query, as
`net/url` does, and the raw query is parsed by `plainParseQuery`; anything else is
refused. The other functions are those of `testLib`. -/
def queryLib : Lib String where
  urlParse := fun s =>
    if plainPath (String.mk (s.data.takeWhile fun c => c != '?')) &&
        plainQuery (String.mk ((s.data.dropWhile fun c => c != '?').drop 1)) then
      Except.ok
        { Path := String.mk (s.data.takeWhile fun c => c != '?'),
          RawQuery := String.mk ((s.data.dropWhile fun c => c != '?').drop 1) }
    else Except.error (GoError.external "parse: unsupported URL")
  ParseQuery := plainParseQuery
  CanonicalMIMEHeaderKey := testLib.CanonicalMIMEHeaderKey
  jsonMarshal := testLib.jsonMarshal
  jsonUnmarshalError := testLib.jsonUnmarshalError
  Unmarshal := testLib.Unmarshal
  UnmarshalList := testLib.UnmarshalList

/-- A traffic route resource with the given meta and payload. -/
def trafficRoute (name mesh spec : String) : model.Resource String :=
  { Type_ := "SampleTrafficRoute", Meta := ⟨name, mesh, ""⟩, Spec := spec }

/-- A mesh resource with the given meta. -/
def meshResource (name mesh : String) : model.Resource String :=
  { Type_ := "Mesh", Meta := ⟨name, mesh, ""⟩, Spec := "" }

/-! ## Auxiliary definitions for the statements -/

/-- The request as `doRequest` hands it to the transport: the `Accept` header set. -/
def acceptJSON {σ : Type} (lib : Lib σ) (req : http.Request) : http.Request :=
  { req with Header := http.Header.Set lib req.Header "Accept" "application/json" }

/-- The request of `upsert` after its `content-type` header is set. -/
def contentTypeJSON {σ : Type} (lib : Lib σ) (req : http.Request) : http.Request :=
  { req with Header := http.Header.Set lib req.Header "content-type" "application/json" }

/-- The request of `List` after its raw query is replaced by the encoded query. -/
def withListQuery {σ : Type} (lib : Lib σ) (req : http.Request) (opts : store.ListOptions) :
    http.Request :=
  { req with URL := { req.URL with RawQuery := url.Values.Encode (listQuery lib req.URL opts) } }

/-- The structured error `doRequest` finds in a response, if any: the status is in
the 4xx range or above, the body decodes, and title and details are non-empty. -/
def structuredError {σ : Type} (lib : Lib σ) (statusCode : Int) (b : String) :
    Option types.Error :=
  if Int.tdiv statusCode 100 ≥ 4 then
    match lib.jsonUnmarshalError b with
    | some kumaErr => if kumaErr.Title ≠ "" ∧ kumaErr.Details ≠ "" then some kumaErr else none
    | none => none
  else none

/-! ## Lemmas on `doRequest` -/

section Lemmas

variable {σ : Type}

theorem doRequest_sent (s : remoteStore) (lib : Lib σ) (req : http.Request) :
    (s.doRequest lib req).sent = [acceptJSON lib req] := by
  unfold remoteStore.doRequest acceptJSON
  simp only []
  repeat' split
  all_goals rfl

theorem doRequest_transport_error (s : remoteStore) (lib : Lib σ) (req : http.Request)
    (e : GoError) (hdo : s.client.Do (acceptJSON lib req) = Except.error e) :
    s.doRequest lib req = ⟨0, "", some e, [acceptJSON lib req]⟩ := by
  unfold acceptJSON at hdo
  unfold remoteStore.doRequest acceptJSON
  simp only [hdo]

theorem doRequest_body_error (s : remoteStore) (lib : Lib σ) (req : http.Request)
    (resp : http.Response) (e : GoError)
    (hdo : s.client.Do (acceptJSON lib req) = Except.ok resp)
    (hb : resp.Body = Except.error e) :
    s.doRequest lib req = ⟨resp.StatusCode, "", some e, [acceptJSON lib req]⟩ := by
  unfold acceptJSON at hdo
  unfold remoteStore.doRequest acceptJSON
  simp only [hdo, hb]

theorem doRequest_response (s : remoteStore) (lib : Lib σ) (req : http.Request)
    (resp : http.Response) (b : String)
    (hdo : s.client.Do (acceptJSON lib req) = Except.ok resp) (hb : resp.Body = Except.ok b) :
    s.doRequest lib req =
      ⟨resp.StatusCode, b, (structuredError lib resp.StatusCode b).map GoError.Kuma,
        [acceptJSON lib req]⟩ := by
  unfold acceptJSON at hdo
  unfold remoteStore.doRequest structuredError acceptJSON
  simp only [hdo, hb]
  repeat' split
  all_goals simp_all

theorem structuredError_some (lib : Lib σ) (st : Int) (b : String) (e : types.Error)
    (hst : Int.tdiv st 100 ≥ 4) (hp : lib.jsonUnmarshalError b = some e)
    (ht : e.Title ≠ "") (hd : e.Details ≠ "") : structuredError lib st b = some e := by
  simp [structuredError, hst, hp, ht, hd]

theorem structuredError_none (lib : Lib σ) (st : Int) (b : String)
    (h : ¬ (Int.tdiv st 100 ≥ 4 ∧
      ∃ e, lib.jsonUnmarshalError b = some e ∧ e.Title ≠ "" ∧ e.Details ≠ "")) :
    structuredError lib st b = none := by
  unfold structuredError
  split
  · rename_i hst
    split
    · rename_i kumaErr hp
      split
      · rename_i htd
        exact absurd ⟨hst, kumaErr, hp, htd.1, htd.2⟩ h
      · rfl
    · rfl
  · rfl

/-! ## Which request an operation sends -/

theorem Get_sent (s : remoteStore) (lib : Lib σ) (res : model.Resource σ)
    (fs : List store.GetOptionsFunc) (r : http.Request)
    (h : (s.Get lib res fs).sent = [r]) :
    ∃ resourceApi req, s.api.GetResourceApi res.Type_ = Except.ok resourceApi ∧
      http.NewRequest lib "GET"
        (resourceApi.Item (store.NewGetOptions fs).Mesh (store.NewGetOptions fs).Name) none
        = Except.ok req ∧ r = acceptJSON lib req := by
  unfold remoteStore.Get at h
  cases hapi : s.api.GetResourceApi res.Type_ with
  | error e => simp [hapi] at h
  | ok resourceApi =>
    simp only [hapi] at h
    cases hreq : http.NewRequest lib "GET"
        (resourceApi.Item (store.NewGetOptions fs).Mesh (store.NewGetOptions fs).Name) none with
    | error e => simp [hreq] at h
    | ok req =>
      simp only [hreq] at h
      refine ⟨resourceApi, req, rfl, hreq, ?_⟩
      have := doRequest_sent s lib req
      repeat' split at h
      all_goals simp_all

theorem Delete_sent (s : remoteStore) (lib : Lib σ) (res : model.Resource σ)
    (fs : List store.DeleteOptionsFunc) (r : http.Request)
    (h : (s.Delete lib res fs).sent = [r]) :
    ∃ resourceApi req, s.api.GetResourceApi res.Type_ = Except.ok resourceApi ∧
      http.NewRequest lib "DELETE"
        (resourceApi.Item (store.NewDeleteOptions fs).Mesh (store.NewDeleteOptions fs).Name)
        none = Except.ok req ∧ r = acceptJSON lib req := by
  unfold remoteStore.Delete at h
  cases hapi : s.api.GetResourceApi res.Type_ with
  | error e => simp [hapi] at h
  | ok resourceApi =>
    simp only [hapi] at h
    cases hreq : http.NewRequest lib "DELETE"
        (resourceApi.Item (store.NewDeleteOptions fs).Mesh (store.NewDeleteOptions fs).Name)
        none with
    | error e => simp [hreq] at h
    | ok req =>
      simp only [hreq] at h
      refine ⟨resourceApi, req, rfl, hreq, ?_⟩
      have := doRequest_sent s lib req
      repeat' split at h
      all_goals simp_all

theorem List_sent (s : remoteStore) (lib : Lib σ) (rs : model.ResourceList σ)
    (fs : List store.ListOptionsFunc) (r : http.Request)
    (h : (s.List lib rs fs).sent = [r]) :
    ∃ resourceApi req, s.api.GetResourceApi rs.ItemType = Except.ok resourceApi ∧
      http.NewRequest lib "GET" (resourceApi.List (store.NewListOptions fs).Mesh) none
        = Except.ok req ∧
      r = acceptJSON lib (withListQuery lib req (store.NewListOptions fs)) := by
  unfold remoteStore.List at h
  cases hapi : s.api.GetResourceApi rs.ItemType with
  | error e => simp [hapi] at h
  | ok resourceApi =>
    simp only [hapi] at h
    cases hreq : http.NewRequest lib "GET"
        (resourceApi.List (store.NewListOptions fs).Mesh) none with
    | error e => simp [hreq] at h
    | ok req =>
      simp only [hreq] at h
      refine ⟨resourceApi, req, rfl, hreq, ?_⟩
      have := doRequest_sent s lib (withListQuery lib req (store.NewListOptions fs))
      unfold withListQuery at this ⊢
      repeat' split at h
      all_goals simp_all

theorem upsert_sent (s : remoteStore) (lib : Lib σ) (res : model.Resource σ)
    (meta : rest.ResourceMeta) (r : http.Request)
    (h : (s.upsert lib res meta).sent = [r]) :
    ∃ resourceApi b req, s.api.GetResourceApi res.Type_ = Except.ok resourceApi ∧
      lib.jsonMarshal { Meta := meta, Spec := res.Spec } = Except.ok b ∧
      http.NewRequest lib "PUT" (resourceApi.Item meta.Mesh meta.Name) (some b)
        = Except.ok req ∧
      r = acceptJSON lib (contentTypeJSON lib req) := by
  unfold remoteStore.upsert at h
  cases hapi : s.api.GetResourceApi res.Type_ with
  | error e => simp [hapi] at h
  | ok resourceApi =>
    simp only [hapi] at h
    cases hm : lib.jsonMarshal { Meta := meta, Spec := res.Spec } with
    | error e => simp [hm] at h
    | ok b =>
      simp only [hm] at h
      cases hreq : http.NewRequest lib "PUT" (resourceApi.Item meta.Mesh meta.Name) (some b) with
      | error e => simp [hreq] at h
      | ok req =>
        simp only [hreq] at h
        refine ⟨resourceApi, b, req, rfl, rfl, hreq, ?_⟩
        have := doRequest_sent s lib (contentTypeJSON lib req)
        unfold contentTypeJSON at this ⊢
        repeat' split at h
        all_goals simp_all

theorem NewRequest_ok (lib : Lib σ) (method target : String) (body : Option String)
    (req : http.Request) (h : http.NewRequest lib method target body = Except.ok req) :
    lib.urlParse target = Except.ok req.URL ∧ req.Method = method ∧ req.Header = [] ∧
      req.Body = body := by
  unfold http.NewRequest at h
  cases hu : lib.urlParse target with
  | error e => simp [hu] at h
  | ok u =>
    simp only [hu, Except.ok.injEq] at h
    subst h
    exact ⟨rfl, rfl, rfl, rfl⟩

theorem NewRequest_of_parse (lib : Lib σ) (method target : String) (body : Option String)
    (u : url.URL) (h : lib.urlParse target = Except.ok u) :
    http.NewRequest lib method target body
      = Except.ok { Method := method, URL := u, Header := [], Body := body } := by
  unfold http.NewRequest
  simp only [h]

/-! ## An operation hands at most one request to the transport -/

theorem upsert_sent_length (s : remoteStore) (lib : Lib σ) (res : model.Resource σ)
    (meta : rest.ResourceMeta) : (s.upsert lib res meta).sent.length ≤ 1 := by
  unfold remoteStore.upsert
  cases hapi : s.api.GetResourceApi res.Type_ with
  | error e => simp
  | ok resourceApi =>
    simp only []
    cases hm : lib.jsonMarshal { Meta := meta, Spec := res.Spec } with
    | error e => simp
    | ok b =>
      simp only []
      cases hreq : http.NewRequest lib "PUT" (resourceApi.Item meta.Mesh meta.Name) (some b) with
      | error e => simp
      | ok req =>
        simp only []
        repeat' split
        all_goals simp [doRequest_sent]

theorem Get_sent_length (s : remoteStore) (lib : Lib σ) (res : model.Resource σ)
    (fs : List store.GetOptionsFunc) : (s.Get lib res fs).sent.length ≤ 1 := by
  unfold remoteStore.Get
  cases hapi : s.api.GetResourceApi res.Type_ with
  | error e => simp
  | ok resourceApi =>
    simp only []
    cases hreq : http.NewRequest lib "GET"
        (resourceApi.Item (store.NewGetOptions fs).Mesh (store.NewGetOptions fs).Name) none with
    | error e => simp
    | ok req =>
      simp only []
      repeat' split
      all_goals simp [doRequest_sent]

theorem Delete_sent_length (s : remoteStore) (lib : Lib σ) (res : model.Resource σ)
    (fs : List store.DeleteOptionsFunc) : (s.Delete lib res fs).sent.length ≤ 1 := by
  unfold remoteStore.Delete
  cases hapi : s.api.GetResourceApi res.Type_ with
  | error e => simp
  | ok resourceApi =>
    simp only []
    cases hreq : http.NewRequest lib "DELETE"
        (resourceApi.Item (store.NewDeleteOptions fs).Mesh (store.NewDeleteOptions fs).Name)
        none with
    | error e => simp
    | ok req =>
      simp only []
      repeat' split
      all_goals simp [doRequest_sent]

theorem List_sent_length (s : remoteStore) (lib : Lib σ) (rs : model.ResourceList σ)
    (fs : List store.ListOptionsFunc) : (s.List lib rs fs).sent.length ≤ 1 := by
  unfold remoteStore.List
  cases hapi : s.api.GetResourceApi rs.ItemType with
  | error e => simp
  | ok resourceApi =>
    simp only []
    cases hreq : http.NewRequest lib "GET"
        (resourceApi.List (store.NewListOptions fs).Mesh) none with
    | error e => simp
    | ok req =>
      simp only []
      repeat' split
      all_goals simp [doRequest_sent]

theorem eq_singleton_of_mem {α : Type} (l : List α) (q : α) (hl : l.length ≤ 1)
    (hq : q ∈ l) : l = [q] := by
  match l, hl, hq with
  | [x], _, hq =>
    simp at hq
    simp [hq]
  | _ :: _ :: _, hl, _ => simp at hl

/-! ## Adding a value to a query -/

theorem lookup_Add (v : url.Values) (k x k2 : String) :
    List.lookup k2 (url.Values.Add v k x)
      = if k2 = k then some ((List.lookup k v).getD [] ++ [x]) else List.lookup k2 v := by
  induction v with
  | nil =>
    by_cases h : k2 = k
    · subst h
      simp [url.Values.Add, List.lookup]
    · have hb : (k2 == k) = false := beq_eq_false_iff_ne.mpr h
      simp [url.Values.Add, List.lookup, h, hb]
  | cons a rest ih =>
    obtain ⟨a1, vs⟩ := a
    by_cases ha : a1 = k
    · subst ha
      by_cases h : k2 = a1
      · subst h
        simp [url.Values.Add, List.lookup]
      · have hb : (k2 == a1) = false := beq_eq_false_iff_ne.mpr h
        simp [url.Values.Add, List.lookup, h, hb]
    · have hka : (k == a1) = false := beq_eq_false_iff_ne.mpr (fun h => ha h.symm)
      by_cases h : k2 = k
      · subst h
        simp [url.Values.Add, List.lookup, ha, hka, ih]
      · by_cases h2 : k2 = a1
        · subst h2
          simp [url.Values.Add, List.lookup, ha]
        · have hk2 : (k2 == a1) = false := beq_eq_false_iff_ne.mpr h2
          simp [url.Values.Add, List.lookup, ha, hk2, h, hka, ih]

theorem Values_lookup_Add (v : url.Values) (k x k2 : String) :
    url.Values.lookup (url.Values.Add v k x) k2
      = if k2 = k then url.Values.lookup v k ++ [x] else url.Values.lookup v k2 := by
  unfold url.Values.lookup
  rw [lookup_Add]
  by_cases h : k2 = k <;> simp [h]

theorem Values_Has_Add (v : url.Values) (k x k2 : String) :
    url.Values.Has (url.Values.Add v k x) k2 = true ↔
      (k2 = k ∨ url.Values.Has v k2 = true) := by
  unfold url.Values.Has
  rw [lookup_Add]
  by_cases h : k2 = k <;> simp [h]

end Lemmas

/-! ## Not-found and structured errors -/

section Errors

variable {σ : Type}

/-- C1: evaluation of `Get` and `Delete` on a response with status 404 and an empty
body, and on one whose body is not JSON. Both return the generic status error
`(404): <body>`, which `IsResourceNotFound` does not recognise; the not-found
translation is only reached when `doRequest` itself reports an error. -/
theorem Get_Delete_404_plain_body_is_generic :
    ((setupErrorStore 404 "").Get testLib (meshResource "" "")
        [store.GetByKey "test" "test"]).err = some (GoError.Errorf "(404): ") ∧
    store.IsResourceNotFound ((setupErrorStore 404 "").Get testLib (meshResource "" "")
        [store.GetByKey "test" "test"]).err = false ∧
    ((setupErrorStore 404 "").Delete testLib (trafficRoute "" "" "")
        [store.DeleteByKey "tr-1" "mesh-1"]).err = some (GoError.Errorf "(404): ") ∧
    store.IsResourceNotFound ((setupErrorStore 404 "").Delete testLib (trafficRoute "" "" "")
        [store.DeleteByKey "tr-1" "mesh-1"]).err = false ∧
    ((setupErrorStore 404 "page not found").Get testLib (meshResource "" "")
        [store.GetByKey "test" "test"]).err = some (GoError.Errorf "(404): page not found") ∧
    ((setupErrorStore 404 "page not found").Delete testLib (trafficRoute "" "" "")
        [store.DeleteByKey "tr-1" "mesh-1"]).err
      = some (GoError.Errorf "(404): page not found") := by
  decide

/-- C2: on `Get` and on `Delete`, when the transport answers the request with
status 404 and a body that decodes to a structured error with non-empty title
and details, the returned error is `ErrorResourceNotFound` of the resource
type and of the name and mesh of the call options, and it is not the structured
error of the body. -/
theorem Get_Delete_404_structured_is_not_found (s : remoteStore) (lib : Lib σ)
    (res : model.Resource σ) (gfs : List store.GetOptionsFunc)
    (dfs : List store.DeleteOptionsFunc) (resp : http.Response) (b : String)
    (e : types.Error)
    (hst : resp.StatusCode = 404) (hb : resp.Body = Except.ok b)
    (hp : lib.jsonUnmarshalError b = some e) (ht : e.Title ≠ "") (hd : e.Details ≠ "") :
    (∀ r, (s.Get lib res gfs).sent = [r] → s.client.Do r = Except.ok resp →
      (s.Get lib res gfs).err = some (store.ErrorResourceNotFound res.Type_
        (store.NewGetOptions gfs).Name (store.NewGetOptions gfs).Mesh) ∧
      (s.Get lib res gfs).err ≠ some (GoError.Kuma e)) ∧
    (∀ r, (s.Delete lib res dfs).sent = [r] → s.client.Do r = Except.ok resp →
      (s.Delete lib res dfs).err = some (store.ErrorResourceNotFound res.Type_
        (store.NewDeleteOptions dfs).Name (store.NewDeleteOptions dfs).Mesh) ∧
      (s.Delete lib res dfs).err ≠ some (GoError.Kuma e)) := by
  have hse : structuredError lib 404 b = some e :=
    structuredError_some lib 404 b e (by decide) hp ht hd
  constructor
  · intro r hs hdo
    obtain ⟨resourceApi, req, hapi, hreq, rfl⟩ := Get_sent s lib res gfs r hs
    have hrun := doRequest_response s lib req resp b hdo hb
    rw [hst, hse] at hrun
    have herr : (s.Get lib res gfs).err = some (store.ErrorResourceNotFound res.Type_
        (store.NewGetOptions gfs).Name (store.NewGetOptions gfs).Mesh) := by
      unfold remoteStore.Get
      simp only [hapi, hreq, hrun]
      simp
    refine ⟨herr, ?_⟩
    rw [herr]
    simp [store.ErrorResourceNotFound]
  · intro r hs hdo
    obtain ⟨resourceApi, req, hapi, hreq, rfl⟩ := Delete_sent s lib res dfs r hs
    have hrun := doRequest_response s lib req resp b hdo hb
    rw [hst, hse] at hrun
    have herr : (s.Delete lib res dfs).err = some (store.ErrorResourceNotFound res.Type_
        (store.NewDeleteOptions dfs).Name (store.NewDeleteOptions dfs).Mesh) := by
      unfold remoteStore.Delete
      simp only [hapi, hreq, hrun]
      simp
    refine ⟨herr, ?_⟩
    rw [herr]
    simp [store.ErrorResourceNotFound]

/-- C2 at the inputs of the test suite: status 404 with the structured not-found
body, `Get` by key `test`/`test` on a mesh and `Delete` by key `tr-1`/`mesh-1` on
a traffic route. -/
theorem Get_Delete_404_structured_is_not_found_witness :
    ((setupErrorStore 404 notFoundJson).Get testLib (meshResource "" "")
        [store.GetByKey "test" "test"]).err
      = some (GoError.ResourceNotFound "Mesh" "test" "test") ∧
    ((setupErrorStore 404 notFoundJson).Delete testLib (meshResource "" "")
        [store.DeleteByKey "tr-1" "mesh-1"]).err
      = some (GoError.ResourceNotFound "Mesh" "tr-1" "mesh-1") :=
  have h := Get_Delete_404_structured_is_not_found (setupErrorStore 404 notFoundJson) testLib
    (meshResource "" "") [store.GetByKey "test" "test"] [store.DeleteByKey "tr-1" "mesh-1"]
    { StatusCode := 404, Body := Except.ok notFoundJson } notFoundJson
    notFoundError
    rfl rfl (by decide) (by decide) (by decide)
  ⟨(h.1 _ rfl rfl).1, (h.2 _ rfl rfl).1⟩

/-- C3: on each of the five operations on a known type, when the request is built
and the transport answers it with a status `s` such that `s / 100 ≥ 4` (and
`s ≠ 404` for `Get` and `Delete`) and a body that decodes to a structured error `e`
with non-empty title and details, the operation returns exactly `e`: the same
title, details and list of causes. -/
theorem structured_error_returned (s : remoteStore) (lib : Lib σ)
    (res : model.Resource σ) (rs : model.ResourceList σ)
    (cfs : List store.CreateOptionsFunc) (ufs : List store.UpdateOptionsFunc)
    (gfs : List store.GetOptionsFunc) (lfs : List store.ListOptionsFunc)
    (dfs : List store.DeleteOptionsFunc) (resp : http.Response) (b : String)
    (e : types.Error)
    (hst : Int.tdiv resp.StatusCode 100 ≥ 4) (hb : resp.Body = Except.ok b)
    (hp : lib.jsonUnmarshalError b = some e) (ht : e.Title ≠ "") (hd : e.Details ≠ "") :
    (∀ resourceApi body req, s.api.GetResourceApi res.Type_ = Except.ok resourceApi →
      lib.jsonMarshal
          { Meta := ⟨res.Type_, (store.NewCreateOptions cfs).Name,
              (store.NewCreateOptions cfs).Mesh⟩,
            Spec := res.Spec } = Except.ok body →
      http.NewRequest lib "PUT" (resourceApi.Item (store.NewCreateOptions cfs).Mesh
        (store.NewCreateOptions cfs).Name) (some body) = Except.ok req →
      s.client.Do (acceptJSON lib (contentTypeJSON lib req)) = Except.ok resp →
      (s.Create lib res cfs).err = some (GoError.Kuma e)) ∧
    (∀ resourceApi body req, s.api.GetResourceApi res.Type_ = Except.ok resourceApi →
      lib.jsonMarshal
          { Meta := ⟨res.Type_, res.Meta.Name, res.Meta.Mesh⟩, Spec := res.Spec }
            = Except.ok body →
      http.NewRequest lib "PUT" (resourceApi.Item res.Meta.Mesh res.Meta.Name) (some body)
        = Except.ok req →
      s.client.Do (acceptJSON lib (contentTypeJSON lib req)) = Except.ok resp →
      (s.Update lib res ufs).err = some (GoError.Kuma e)) ∧
    (∀ resourceApi req, s.api.GetResourceApi res.Type_ = Except.ok resourceApi →
      http.NewRequest lib "GET" (resourceApi.Item (store.NewGetOptions gfs).Mesh
        (store.NewGetOptions gfs).Name) none = Except.ok req →
      s.client.Do (acceptJSON lib req) = Except.ok resp →
      resp.StatusCode ≠ 404 → (s.Get lib res gfs).err = some (GoError.Kuma e)) ∧
    (∀ resourceApi req, s.api.GetResourceApi rs.ItemType = Except.ok resourceApi →
      http.NewRequest lib "GET" (resourceApi.List (store.NewListOptions lfs).Mesh) none
        = Except.ok req →
      s.client.Do (acceptJSON lib (withListQuery lib req (store.NewListOptions lfs)))
        = Except.ok resp →
      (s.List lib rs lfs).err = some (GoError.Kuma e)) ∧
    (∀ resourceApi req, s.api.GetResourceApi res.Type_ = Except.ok resourceApi →
      http.NewRequest lib "DELETE" (resourceApi.Item (store.NewDeleteOptions dfs).Mesh
        (store.NewDeleteOptions dfs).Name) none = Except.ok req →
      s.client.Do (acceptJSON lib req) = Except.ok resp →
      resp.StatusCode ≠ 404 → (s.Delete lib res dfs).err = some (GoError.Kuma e)) := by
  have hse := structuredError_some lib resp.StatusCode b e hst hp ht hd
  refine ⟨?_, ?_, ?_, ?_, ?_⟩
  · intro resourceApi body req hapi hm hreq hdo
    have hrun := doRequest_response s lib (contentTypeJSON lib req) resp b hdo hb
    rw [hse] at hrun
    unfold contentTypeJSON at hrun
    unfold remoteStore.Create remoteStore.upsert
    simp only [hapi, hm, hreq, hrun]
    simp
  · intro resourceApi body req hapi hm hreq hdo
    have hrun := doRequest_response s lib (contentTypeJSON lib req) resp b hdo hb
    rw [hse] at hrun
    unfold contentTypeJSON at hrun
    unfold remoteStore.Update remoteStore.upsert
    simp only [hapi, hm, hreq, hrun]
    simp
  · intro resourceApi req hapi hreq hdo h404
    have hrun := doRequest_response s lib req resp b hdo hb
    rw [hse] at hrun
    unfold remoteStore.Get
    simp only [hapi, hreq, hrun]
    simp [h404]
  · intro resourceApi req hapi hreq hdo
    have hrun := doRequest_response s lib _ resp b hdo hb
    rw [hse] at hrun
    unfold withListQuery at hrun
    unfold remoteStore.List
    simp only [hapi, hreq, hrun]
    simp
  · intro resourceApi req hapi hreq hdo h404
    have hrun := doRequest_response s lib req resp b hdo hb
    rw [hse] at hrun
    unfold remoteStore.Delete
    simp only [hapi, hreq, hrun]
    simp [h404]

/-- C3 at the input of the test `Update() should parse kuma api server error`: status
400 with the validation error body; each of the five operations returns the
structured error with its two causes in order. -/
theorem structured_error_returned_witness :
    ((setupErrorStore 400 invalidJson).Create testLib (meshResource "test" "test")
        [store.CreateByKey "test" "test"]).err = some (GoError.Kuma invalidError) ∧
    ((setupErrorStore 400 invalidJson).Update testLib (meshResource "test" "test") []).err
      = some (GoError.Kuma invalidError) ∧
    ((setupErrorStore 400 invalidJson).Get testLib (meshResource "test" "test")
        [store.GetByKey "test" "test"]).err = some (GoError.Kuma invalidError) ∧
    ((setupErrorStore 400 invalidJson).List testLib { ItemType := "Mesh", Items := [] }
        []).err = some (GoError.Kuma invalidError) ∧
    ((setupErrorStore 400 invalidJson).Delete testLib (meshResource "test" "test")
        [store.DeleteByKey "tr-1" "mesh-1"]).err = some (GoError.Kuma invalidError) :=
  have h := structured_error_returned (setupErrorStore 400 invalidJson) testLib
    (meshResource "test" "test") { ItemType := "Mesh", Items := [] }
    [store.CreateByKey "test" "test"] [] [store.GetByKey "test" "test"] []
    [store.DeleteByKey "tr-1" "mesh-1"]
    { StatusCode := 400, Body := Except.ok invalidJson } invalidJson
    invalidError
    (by decide) rfl rfl (by decide) (by decide)
  ⟨h.1 _ _ _ rfl rfl rfl rfl, h.2.1 _ _ _ rfl rfl rfl rfl,
   h.2.2.1 _ _ rfl rfl rfl (by decide), h.2.2.2.1 _ _ rfl rfl rfl,
   h.2.2.2.2 _ _ rfl rfl rfl (by decide)⟩

/-- C4: on every operation on a known type, when the request is built and the
transport answers it with a readable body `b` and a status outside the success
set of the operation (200 and 201 for `Create` and `Update`, 200 alone for `Get`,
`List` and `Delete`), the status is not 404 on `Get` and `Delete`, and the body is
not a well-formed structured error at a status with `status / 100 ≥ 4`, the
operation returns the error whose message is `(` followed by the decimal status
code, `): ` and the body text. -/
theorem generic_status_error (s : remoteStore) (lib : Lib σ)
    (res : model.Resource σ) (rs : model.ResourceList σ)
    (cfs : List store.CreateOptionsFunc) (ufs : List store.UpdateOptionsFunc)
    (gfs : List store.GetOptionsFunc) (lfs : List store.ListOptionsFunc)
    (dfs : List store.DeleteOptionsFunc) (resp : http.Response) (b : String)
    (hb : resp.Body = Except.ok b)
    (hns : ¬ (Int.tdiv resp.StatusCode 100 ≥ 4 ∧
      ∃ e, lib.jsonUnmarshalError b = some e ∧ e.Title ≠ "" ∧ e.Details ≠ "")) :
    (∀ resourceApi body req, s.api.GetResourceApi res.Type_ = Except.ok resourceApi →
      lib.jsonMarshal
          { Meta := ⟨res.Type_, (store.NewCreateOptions cfs).Name,
              (store.NewCreateOptions cfs).Mesh⟩,
            Spec := res.Spec } = Except.ok body →
      http.NewRequest lib "PUT" (resourceApi.Item (store.NewCreateOptions cfs).Mesh
        (store.NewCreateOptions cfs).Name) (some body) = Except.ok req →
      s.client.Do (acceptJSON lib (contentTypeJSON lib req)) = Except.ok resp →
      resp.StatusCode ≠ 200 → resp.StatusCode ≠ 201 →
      (s.Create lib res cfs).err
        = some (GoError.Errorf ("(" ++ toString resp.StatusCode ++ "): " ++ b))) ∧
    (∀ resourceApi body req, s.api.GetResourceApi res.Type_ = Except.ok resourceApi →
      lib.jsonMarshal
          { Meta := ⟨res.Type_, res.Meta.Name, res.Meta.Mesh⟩, Spec := res.Spec }
            = Except.ok body →
      http.NewRequest lib "PUT" (resourceApi.Item res.Meta.Mesh res.Meta.Name) (some body)
        = Except.ok req →
      s.client.Do (acceptJSON lib (contentTypeJSON lib req)) = Except.ok resp →
      resp.StatusCode ≠ 200 → resp.StatusCode ≠ 201 →
      (s.Update lib res ufs).err
        = some (GoError.Errorf ("(" ++ toString resp.StatusCode ++ "): " ++ b))) ∧
    (∀ resourceApi req, s.api.GetResourceApi res.Type_ = Except.ok resourceApi →
      http.NewRequest lib "GET" (resourceApi.Item (store.NewGetOptions gfs).Mesh
        (store.NewGetOptions gfs).Name) none = Except.ok req →
      s.client.Do (acceptJSON lib req) = Except.ok resp →
      resp.StatusCode ≠ 200 → resp.StatusCode ≠ 404 →
      (s.Get lib res gfs).err
        = some (GoError.Errorf ("(" ++ toString resp.StatusCode ++ "): " ++ b))) ∧
    (∀ resourceApi req, s.api.GetResourceApi rs.ItemType = Except.ok resourceApi →
      http.NewRequest lib "GET" (resourceApi.List (store.NewListOptions lfs).Mesh) none
        = Except.ok req →
      s.client.Do (acceptJSON lib (withListQuery lib req (store.NewListOptions lfs)))
        = Except.ok resp →
      resp.StatusCode ≠ 200 →
      (s.List lib rs lfs).err
        = some (GoError.Errorf ("(" ++ toString resp.StatusCode ++ "): " ++ b))) ∧
    (∀ resourceApi req, s.api.GetResourceApi res.Type_ = Except.ok resourceApi →
      http.NewRequest lib "DELETE" (resourceApi.Item (store.NewDeleteOptions dfs).Mesh
        (store.NewDeleteOptions dfs).Name) none = Except.ok req →
      s.client.Do (acceptJSON lib req) = Except.ok resp →
      resp.StatusCode ≠ 200 → resp.StatusCode ≠ 404 →
      (s.Delete lib res dfs).err
        = some (GoError.Errorf ("(" ++ toString resp.StatusCode ++ "): " ++ b))) := by
  have hse := structuredError_none lib resp.StatusCode b hns
  refine ⟨?_, ?_, ?_, ?_, ?_⟩
  · intro resourceApi body req hapi hm hreq hdo h200 h201
    have hrun := doRequest_response s lib (contentTypeJSON lib req) resp b hdo hb
    rw [hse] at hrun
    unfold contentTypeJSON at hrun
    unfold remoteStore.Create remoteStore.upsert
    simp only [hapi, hm, hreq, hrun]
    simp [h200, h201, statusError]
  · intro resourceApi body req hapi hm hreq hdo h200 h201
    have hrun := doRequest_response s lib (contentTypeJSON lib req) resp b hdo hb
    rw [hse] at hrun
    unfold contentTypeJSON at hrun
    unfold remoteStore.Update remoteStore.upsert
    simp only [hapi, hm, hreq, hrun]
    simp [h200, h201, statusError]
  · intro resourceApi req hapi hreq hdo h200 _
    have hrun := doRequest_response s lib req resp b hdo hb
    rw [hse] at hrun
    unfold remoteStore.Get
    simp only [hapi, hreq, hrun]
    simp [h200, statusError]
  · intro resourceApi req hapi hreq hdo h200
    have hrun := doRequest_response s lib _ resp b hdo hb
    rw [hse] at hrun
    unfold withListQuery at hrun
    unfold remoteStore.List
    simp only [hapi, hreq, hrun]
    simp [h200, statusError]
  · intro resourceApi req hapi hreq hdo h200 _
    have hrun := doRequest_response s lib req resp b hdo hb
    rw [hse] at hrun
    unfold remoteStore.Delete
    simp only [hapi, hreq, hrun]
    simp [h200, statusError]

/-- C4 at the inputs of the tests `should return error from the api server`: status
400 with a plain-text body gives `(400): some error from the server` on each of the
five operations. -/
theorem generic_status_error_witness :
    ((setupErrorStore 400 "some error from the server").Create testLib
        (meshResource "default" "default") []).err
      = some (GoError.Errorf "(400): some error from the server") ∧
    ((setupErrorStore 400 "some error from the server").Update testLib
        (meshResource "default" "default") []).err
      = some (GoError.Errorf "(400): some error from the server") ∧
    ((setupErrorStore 400 "some error from the server").Get testLib
        (meshResource "default" "default") [store.GetByKey "test" "test"]).err
      = some (GoError.Errorf "(400): some error from the server") ∧
    ((setupErrorStore 400 "some error from the server").List testLib
        { ItemType := "Mesh", Items := [] } []).err
      = some (GoError.Errorf "(400): some error from the server") ∧
    ((setupErrorStore 400 "some error from the server").Delete testLib
        (meshResource "default" "default") [store.DeleteByKey "tr-1" "mesh-1"]).err
      = some (GoError.Errorf "(400): some error from the server") :=
  have h := generic_status_error (setupErrorStore 400 "some error from the server") testLib
    (meshResource "default" "default") { ItemType := "Mesh", Items := [] }
    [] [] [store.GetByKey "test" "test"] [] [store.DeleteByKey "tr-1" "mesh-1"]
    { StatusCode := 400, Body := Except.ok "some error from the server" }
    "some error from the server" rfl (by decide)
  ⟨h.1 _ _ _ rfl rfl rfl rfl (by decide) (by decide),
   h.2.1 _ _ _ rfl rfl rfl rfl (by decide) (by decide),
   h.2.2.1 _ _ rfl rfl rfl (by decide) (by decide),
   h.2.2.2.1 _ _ rfl rfl rfl (by decide),
   h.2.2.2.2 _ _ rfl rfl rfl (by decide) (by decide)⟩

/-- C5: on each of the five operations on a known type, when the request is built
and the transport's `Do` answers it with an error `e` and no response, the
operation returns exactly `e`. -/
theorem transport_error_verbatim (s : remoteStore) (lib : Lib σ)
    (res : model.Resource σ) (rs : model.ResourceList σ)
    (cfs : List store.CreateOptionsFunc) (ufs : List store.UpdateOptionsFunc)
    (gfs : List store.GetOptionsFunc) (lfs : List store.ListOptionsFunc)
    (dfs : List store.DeleteOptionsFunc) (e : GoError) :
    (∀ resourceApi body req, s.api.GetResourceApi res.Type_ = Except.ok resourceApi →
      lib.jsonMarshal
          { Meta := ⟨res.Type_, (store.NewCreateOptions cfs).Name,
              (store.NewCreateOptions cfs).Mesh⟩,
            Spec := res.Spec } = Except.ok body →
      http.NewRequest lib "PUT" (resourceApi.Item (store.NewCreateOptions cfs).Mesh
        (store.NewCreateOptions cfs).Name) (some body) = Except.ok req →
      s.client.Do (acceptJSON lib (contentTypeJSON lib req)) = Except.error e →
      (s.Create lib res cfs).err = some e) ∧
    (∀ resourceApi body req, s.api.GetResourceApi res.Type_ = Except.ok resourceApi →
      lib.jsonMarshal
          { Meta := ⟨res.Type_, res.Meta.Name, res.Meta.Mesh⟩, Spec := res.Spec }
            = Except.ok body →
      http.NewRequest lib "PUT" (resourceApi.Item res.Meta.Mesh res.Meta.Name) (some body)
        = Except.ok req →
      s.client.Do (acceptJSON lib (contentTypeJSON lib req)) = Except.error e →
      (s.Update lib res ufs).err = some e) ∧
    (∀ resourceApi req, s.api.GetResourceApi res.Type_ = Except.ok resourceApi →
      http.NewRequest lib "GET" (resourceApi.Item (store.NewGetOptions gfs).Mesh
        (store.NewGetOptions gfs).Name) none = Except.ok req →
      s.client.Do (acceptJSON lib req) = Except.error e →
      (s.Get lib res gfs).err = some e) ∧
    (∀ resourceApi req, s.api.GetResourceApi rs.ItemType = Except.ok resourceApi →
      http.NewRequest lib "GET" (resourceApi.List (store.NewListOptions lfs).Mesh) none
        = Except.ok req →
      s.client.Do (acceptJSON lib (withListQuery lib req (store.NewListOptions lfs)))
        = Except.error e →
      (s.List lib rs lfs).err = some e) ∧
    (∀ resourceApi req, s.api.GetResourceApi res.Type_ = Except.ok resourceApi →
      http.NewRequest lib "DELETE" (resourceApi.Item (store.NewDeleteOptions dfs).Mesh
        (store.NewDeleteOptions dfs).Name) none = Except.ok req →
      s.client.Do (acceptJSON lib req) = Except.error e →
      (s.Delete lib res dfs).err = some e) := by
  refine ⟨?_, ?_, ?_, ?_, ?_⟩
  · intro resourceApi body req hapi hm hreq hdo
    have hrun := doRequest_transport_error s lib (contentTypeJSON lib req) e hdo
    unfold contentTypeJSON at hrun
    unfold remoteStore.Create remoteStore.upsert
    simp only [hapi, hm, hreq, hrun]
  · intro resourceApi body req hapi hm hreq hdo
    have hrun := doRequest_transport_error s lib (contentTypeJSON lib req) e hdo
    unfold contentTypeJSON at hrun
    unfold remoteStore.Update remoteStore.upsert
    simp only [hapi, hm, hreq, hrun]
  · intro resourceApi req hapi hreq hdo
    have hrun := doRequest_transport_error s lib req e hdo
    unfold remoteStore.Get
    simp only [hapi, hreq, hrun]
    simp
  · intro resourceApi req hapi hreq hdo
    have hrun := doRequest_transport_error s lib _ e hdo
    unfold withListQuery at hrun
    unfold remoteStore.List
    simp only [hapi, hreq, hrun]
  · intro resourceApi req hapi hreq hdo
    have hrun := doRequest_transport_error s lib req e hdo
    unfold remoteStore.Delete
    simp only [hapi, hreq, hrun]
    simp

/-- C5 at a transport that refuses every connection: each of the five operations
returns the error of the transport itself. -/
theorem transport_error_verbatim_witness :
    ((setupFailingStore (GoError.external "connection refused")).Create testLib
        (meshResource "" "") [store.CreateByKey "test" "test"]).err
      = some (GoError.external "connection refused") ∧
    ((setupFailingStore (GoError.external "connection refused")).Update testLib
        (meshResource "test" "test") []).err
      = some (GoError.external "connection refused") ∧
    ((setupFailingStore (GoError.external "connection refused")).Get testLib
        (meshResource "" "") [store.GetByKey "test" "test"]).err
      = some (GoError.external "connection refused") ∧
    ((setupFailingStore (GoError.external "connection refused")).List testLib
        { ItemType := "Mesh", Items := [] } []).err
      = some (GoError.external "connection refused") ∧
    ((setupFailingStore (GoError.external "connection refused")).Delete testLib
        (meshResource "" "") [store.DeleteByKey "tr-1" "mesh-1"]).err
      = some (GoError.external "connection refused") :=
  have h := transport_error_verbatim (setupFailingStore (GoError.external "connection refused"))
    testLib (meshResource "" "") { ItemType := "Mesh", Items := [] }
    [store.CreateByKey "test" "test"] [] [store.GetByKey "test" "test"] []
    [store.DeleteByKey "tr-1" "mesh-1"]
    (GoError.external "connection refused")
  have g := transport_error_verbatim (setupFailingStore (GoError.external "connection refused"))
    testLib (meshResource "test" "test") { ItemType := "Mesh", Items := [] }
    [] [] [] [] [] (GoError.external "connection refused")
  ⟨h.1 _ _ _ rfl rfl rfl rfl, g.2.1 _ _ _ rfl rfl rfl rfl, h.2.2.1 _ _ rfl rfl rfl,
   h.2.2.2.1 _ _ rfl rfl rfl, h.2.2.2.2 _ _ rfl rfl rfl⟩

end Errors

/-! ## Type resolution, success of `Create` and `Update`, and the requests sent -/

section Requests

variable {σ : Type}

/-- C6: when the API descriptor has no entry for the type of the resource (for
`List`, the item type of the list), each of the five operations returns an error,
the descriptor's error wrapped with the operation's message, and hands no request
to the transport. -/
theorem unknown_type_fails_without_request (s : remoteStore) (lib : Lib σ)
    (res : model.Resource σ) (rs : model.ResourceList σ)
    (cfs : List store.CreateOptionsFunc) (ufs : List store.UpdateOptionsFunc)
    (gfs : List store.GetOptionsFunc) (lfs : List store.ListOptionsFunc)
    (dfs : List store.DeleteOptionsFunc) (e : GoError) :
    (s.api.GetResourceApi res.Type_ = Except.error e →
      ((s.Create lib res cfs).err
          = some (GoError.Wrapf e "failed to construct URI to update a %q" res.Type_) ∧
        (s.Create lib res cfs).sent = []) ∧
      ((s.Update lib res ufs).err
          = some (GoError.Wrapf e "failed to construct URI to update a %q" res.Type_) ∧
        (s.Update lib res ufs).sent = []) ∧
      ((s.Get lib res gfs).err
          = some (GoError.Wrapf e "failed to construct URI to fetch a %q" res.Type_) ∧
        (s.Get lib res gfs).sent = []) ∧
      ((s.Delete lib res dfs).err
          = some (GoError.Wrapf e "failed to construct URI to delete a %q" res.Type_) ∧
        (s.Delete lib res dfs).sent = [])) ∧
    (s.api.GetResourceApi rs.ItemType = Except.error e →
      (s.List lib rs lfs).err
          = some (GoError.Wrapf e "failed to construct URI to fetch a list of %q" rs.ItemType) ∧
        (s.List lib rs lfs).sent = []) := by
  constructor
  · intro h
    unfold remoteStore.Create remoteStore.Update remoteStore.upsert remoteStore.Get
      remoteStore.Delete
    simp only [h]
    simp
  · intro h
    unfold remoteStore.List
    simp only [h]
    simp

/-- C6 at a resource of a type the test descriptor does not know: all five
operations fail and the transport sees no request. -/
theorem unknown_type_fails_without_request_witness :
    (((setupStore "").Create testLib
        { Type_ := "Unknown", Meta := ⟨"", "", ""⟩, Spec := "" } []).err.isSome = true ∧
      ((setupStore "").Create testLib
        { Type_ := "Unknown", Meta := ⟨"", "", ""⟩, Spec := "" } []).sent = []) ∧
    (((setupStore "").List testLib { ItemType := "Unknown", Items := [] } []).err.isSome = true ∧
      ((setupStore "").List testLib { ItemType := "Unknown", Items := [] } []).sent = []) :=
  have h := unknown_type_fails_without_request (setupStore "") testLib
    { Type_ := "Unknown", Meta := ⟨"", "", ""⟩, Spec := "" }
    { ItemType := "Unknown", Items := [] } [] [] [] [] []
    (GoError.external "unknown resource type: Unknown")
  ⟨⟨by rw [(h.1 rfl).1.1]; rfl, (h.1 rfl).1.2⟩, ⟨by rw [(h.2 rfl).1]; rfl, (h.2 rfl).2⟩⟩

/-- C7: for `Create` and `Update` whose request reached the transport and was
answered with a readable body, the operation returns no error exactly when the
status is 200 or 201, and then the resource's meta is the target name, the target
mesh and the empty version; the target is the name and mesh of the options for
`Create` and of the resource's prior meta for `Update`. -/
theorem upsert_success_iff_200_201 (s : remoteStore) (lib : Lib σ)
    (res : model.Resource σ) (cfs : List store.CreateOptionsFunc)
    (ufs : List store.UpdateOptionsFunc) (resp : http.Response) (b : String)
    (hb : resp.Body = Except.ok b) :
    (∀ r, (s.Create lib res cfs).sent = [r] → s.client.Do r = Except.ok resp →
      ((s.Create lib res cfs).err = none ↔
        (resp.StatusCode = 200 ∨ resp.StatusCode = 201)) ∧
      ((s.Create lib res cfs).err = none →
        (s.Create lib res cfs).res.Meta =
          { Name := (store.NewCreateOptions cfs).Name,
            Mesh := (store.NewCreateOptions cfs).Mesh, Version := "" })) ∧
    (∀ r, (s.Update lib res ufs).sent = [r] → s.client.Do r = Except.ok resp →
      ((s.Update lib res ufs).err = none ↔
        (resp.StatusCode = 200 ∨ resp.StatusCode = 201)) ∧
      ((s.Update lib res ufs).err = none →
        (s.Update lib res ufs).res.Meta =
          { Name := res.Meta.Name, Mesh := res.Meta.Mesh, Version := "" })) := by
  have key : ∀ (meta : rest.ResourceMeta) (r : http.Request),
      (s.upsert lib res meta).sent = [r] → s.client.Do r = Except.ok resp →
      ((s.upsert lib res meta).err = none ↔
        (resp.StatusCode = 200 ∨ resp.StatusCode = 201)) ∧
      ((s.upsert lib res meta).err = none →
        (s.upsert lib res meta).res.Meta =
          { Name := meta.Name, Mesh := meta.Mesh, Version := "" }) := by
    intro meta r hs hdo
    obtain ⟨resourceApi, body, req, hapi, hm, hreq, rfl⟩ := upsert_sent s lib res meta r hs
    have hrun := doRequest_response s lib (contentTypeJSON lib req) resp b hdo hb
    unfold contentTypeJSON at hrun
    unfold remoteStore.upsert
    simp only [hapi, hm, hreq, hrun]
    cases hse : structuredError lib resp.StatusCode b with
    | some e =>
      have hst : Int.tdiv resp.StatusCode 100 ≥ 4 := by
        unfold structuredError at hse
        by_contra hc
        simp [hc] at hse
      have h200 : resp.StatusCode ≠ 200 := by
        intro h
        rw [h] at hst
        exact absurd hst (by decide)
      have h201 : resp.StatusCode ≠ 201 := by
        intro h
        rw [h] at hst
        exact absurd hst (by decide)
      simp [h200, h201]
    | none =>
      by_cases h200 : resp.StatusCode = 200
      · simp [h200, remoteMeta]
      · by_cases h201 : resp.StatusCode = 201
        · simp [h201, remoteMeta]
        · simp [h200, h201]
  exact ⟨fun r hs hdo => key _ r hs hdo, fun r hs hdo => key _ r hs hdo⟩

/-- C7 at the inputs of the tests `should send proper json`: a successful `Create` by
key `res-1`/`default` and a successful `Update` of a resource that carried a
version stamp the meta `res-1`, `default`, empty version. -/
theorem upsert_success_iff_200_201_witness :
    ((setupStore "").Create testLib (trafficRoute "" "" "/some-path")
        [store.CreateByKey "res-1" "default"]).res.Meta = ⟨"res-1", "default", ""⟩ ∧
    ((setupStore "").Update testLib
        { Type_ := "SampleTrafficRoute", Meta := ⟨"res-1", "default", "v7"⟩,
          Spec := "/some-path" } []).res.Meta = ⟨"res-1", "default", ""⟩ :=
  have h := upsert_success_iff_200_201 (setupStore "") testLib
    (trafficRoute "" "" "/some-path") [store.CreateByKey "res-1" "default"] []
    { StatusCode := 200, Body := Except.ok "" } "" rfl
  have g := upsert_success_iff_200_201 (setupStore "") testLib
    { Type_ := "SampleTrafficRoute", Meta := ⟨"res-1", "default", "v7"⟩,
      Spec := "/some-path" } [] []
    { StatusCode := 200, Body := Except.ok "" } "" rfl
  ⟨(h.1 _ rfl rfl).2 ((h.1 _ rfl rfl).1.2 (Or.inl rfl)),
   (g.2 _ rfl rfl).2 ((g.2 _ rfl rfl).1.2 (Or.inl rfl))⟩

/-- C9: `Update` of a resource and `Create` of the same resource by the key of its
meta have the same outcome: the same returned error, the same final resource and
the same request handed to the transport. That request has method `PUT`, the URL
parsed from the item URL of the meta's mesh and name, the `content-type` and
`Accept` headers set, and as body the marshalled envelope of type, name, mesh and
spec. -/
theorem Update_eq_Create_by_key (s : remoteStore) (lib : Lib σ) (res : model.Resource σ)
    (ufs : List store.UpdateOptionsFunc) :
    s.Update lib res ufs
      = s.Create lib res [store.CreateByKey res.Meta.Name res.Meta.Mesh] ∧
    ∀ q ∈ (s.Update lib res ufs).sent,
      q.Method = "PUT" ∧
      (∃ resourceApi, s.api.GetResourceApi res.Type_ = Except.ok resourceApi ∧
        lib.urlParse (resourceApi.Item res.Meta.Mesh res.Meta.Name) = Except.ok q.URL) ∧
      q.Header = http.Header.Set lib
        (http.Header.Set lib [] "content-type" "application/json")
        "Accept" "application/json" ∧
      (∃ b, lib.jsonMarshal
          { Meta := { Type_ := res.Type_, Name := res.Meta.Name, Mesh := res.Meta.Mesh },
            Spec := res.Spec } = Except.ok b ∧ q.Body = some b) := by
  refine ⟨rfl, ?_⟩
  intro q hq
  have hs : (s.upsert lib res
      { Type_ := res.Type_, Name := res.Meta.Name, Mesh := res.Meta.Mesh }).sent = [q] :=
    eq_singleton_of_mem _ q (upsert_sent_length s lib res _) hq
  obtain ⟨resourceApi, b, req, hapi, hm, hreq, rfl⟩ := upsert_sent s lib res _ q hs
  obtain ⟨hu, hmeth, hhead, hbody⟩ := NewRequest_ok lib _ _ _ req hreq
  refine ⟨hmeth, ⟨resourceApi, hapi, hu⟩, ?_, ⟨b, hm, hbody⟩⟩
  simp [acceptJSON, contentTypeJSON, hhead]

/-- C9 at the resource of the test `Update() should send proper json`: the request is
a `PUT` to `/meshes/default/traffic-routes/res-1` with both headers and the
marshalled envelope. -/
theorem Update_eq_Create_by_key_witness :
    (setupStore "").Update testLib (trafficRoute "res-1" "default" "/some-path") []
      = (setupStore "").Create testLib (trafficRoute "res-1" "default" "/some-path")
          [store.CreateByKey "res-1" "default"] ∧
    ((setupStore "").Update testLib (trafficRoute "res-1" "default" "/some-path") []).sent
      = [{ Method := "PUT", URL := ⟨"/meshes/default/traffic-routes/res-1", ""⟩,
           Header := [("Accept", ["application/json"]),
             ("Content-Type", ["application/json"])],
           Body := some "SampleTrafficRoute default res-1 /some-path" }] ∧
    ("PUT" = "PUT" ∧
      [("Accept", ["application/json"]), ("Content-Type", ["application/json"])]
        = http.Header.Set testLib (http.Header.Set testLib [] "content-type" "application/json")
            "Accept" "application/json") :=
  have h := Update_eq_Create_by_key (setupStore "") testLib
    (trafficRoute "res-1" "default" "/some-path") []
  have g := h.2
    { Method := "PUT", URL := ⟨"/meshes/default/traffic-routes/res-1", ""⟩,
      Header := [("Accept", ["application/json"]), ("Content-Type", ["application/json"])],
      Body := some "SampleTrafficRoute default res-1 /some-path" } (by decide)
  ⟨h.1, by decide, g.1, g.2.2.1⟩

/-- C8, as stated, fails: `List` keeps the query parameters that the collection URL
rendered by the descriptor already carries. For the mesh name `demo?b=1` the
rendered URL is `/meshes/demo?b=1/traffic-routes`; without pagination options the
raw query of the request is `b=1%2Ftraffic-routes`, not empty, and with
`ListByPage(1, "2")` it carries the parameter `b` besides `offset` and `size`. -/
theorem List_keeps_query_of_collection_URL :
    ((setupStore "").List queryLib { ItemType := "SampleTrafficRoute", Items := [] }
        [store.ListByMesh "demo?b=1"]).sent
      = [{ Method := "GET", URL := ⟨"/meshes/demo", "b=1%2Ftraffic-routes"⟩,
           Header := [("Accept", ["application/json"])], Body := none }] ∧
    ((setupStore "").List queryLib { ItemType := "SampleTrafficRoute", Items := [] }
        [store.ListByMesh "demo?b=1", store.ListByPage 1 "2"]).sent
      = [{ Method := "GET",
           URL := ⟨"/meshes/demo", "b=1%2Ftraffic-routes&offset=2&size=1"⟩,
           Header := [("Accept", ["application/json"])], Body := none }] ∧
    url.Values.Has (listQuery queryLib ⟨"/meshes/demo", "b=1/traffic-routes"⟩
      (store.NewListOptions [store.ListByMesh "demo?b=1", store.ListByPage 1 "2"])) "b"
      = true := by
  decide

/-- C8, amended: for every `List` call on a known item type whose collection URL
parses, one `GET` request is handed to the transport, and its raw query is the
encoding of the query that the collection URL already carries with `offset` added
exactly when the page offset is non-empty (its value the page offset) and `size`
added exactly when the page size is non-zero (its value the decimal page size);
nothing else is added or removed. When the collection URL carries no query, the
raw query of the request consists of exactly these pairs: it is empty without
pagination options, and `offset=2&size=1` for `ListByPage(1, "2")`. -/
theorem List_query_parameters (s : remoteStore) (lib : Lib σ) (rs : model.ResourceList σ)
    (fs : List store.ListOptionsFunc) (resourceApi : rest.ResourceApi) (u : url.URL)
    (hapi : s.api.GetResourceApi rs.ItemType = Except.ok resourceApi)
    (hu : lib.urlParse (resourceApi.List (store.NewListOptions fs).Mesh) = Except.ok u) :
    ∃ r, (s.List lib rs fs).sent = [r] ∧ r.Method = "GET" ∧ r.URL.Path = u.Path ∧
      r.URL.RawQuery = url.Values.Encode (listQuery lib u (store.NewListOptions fs)) ∧
      (∀ k, url.Values.Has (listQuery lib u (store.NewListOptions fs)) k = true ↔
        (url.Values.Has (url.URL.Query lib u) k = true ∨
          (k = "offset" ∧ (store.NewListOptions fs).PageOffset ≠ "") ∨
          (k = "size" ∧ (store.NewListOptions fs).PageSize ≠ 0))) ∧
      (∀ k, k ≠ "offset" → k ≠ "size" →
        url.Values.lookup (listQuery lib u (store.NewListOptions fs)) k
          = url.Values.lookup (url.URL.Query lib u) k) ∧
      url.Values.lookup (listQuery lib u (store.NewListOptions fs)) "offset"
        = url.Values.lookup (url.URL.Query lib u) "offset" ++
          (if (store.NewListOptions fs).PageOffset ≠ "" then
            [(store.NewListOptions fs).PageOffset] else []) ∧
      url.Values.lookup (listQuery lib u (store.NewListOptions fs)) "size"
        = url.Values.lookup (url.URL.Query lib u) "size" ++
          (if (store.NewListOptions fs).PageSize ≠ 0 then
            [toString (store.NewListOptions fs).PageSize] else []) ∧
      (u.RawQuery = "" →
        r.URL.RawQuery = "&".intercalate
          ((if (store.NewListOptions fs).PageOffset ≠ "" then
              ["offset=" ++ url.QueryEscape (store.NewListOptions fs).PageOffset] else []) ++
            (if (store.NewListOptions fs).PageSize ≠ 0 then
              ["size=" ++ url.QueryEscape (toString (store.NewListOptions fs).PageSize)]
              else [])) ∧
        ((store.NewListOptions fs).PageOffset = "" → (store.NewListOptions fs).PageSize = 0 →
          r.URL.RawQuery = "") ∧
        ((store.NewListOptions fs).PageSize = 1 → (store.NewListOptions fs).PageOffset = "2" →
          r.URL.RawQuery = "offset=2&size=1")) := by
  have hreq := NewRequest_of_parse lib "GET"
    (resourceApi.List (store.NewListOptions fs).Mesh) none u hu
  have hsent : (s.List lib rs fs).sent
      = [acceptJSON lib (withListQuery lib
          { Method := "GET", URL := u, Header := [], Body := none }
          (store.NewListOptions fs))] := by
    unfold remoteStore.List
    simp only [hapi, hreq]
    unfold withListQuery
    repeat' split
    all_goals simp [doRequest_sent]
  have hexplicit : u.RawQuery = "" →
      url.Values.Encode (listQuery lib u (store.NewListOptions fs)) = "&".intercalate
        ((if (store.NewListOptions fs).PageOffset ≠ "" then
            ["offset=" ++ url.QueryEscape (store.NewListOptions fs).PageOffset] else []) ++
          (if (store.NewListOptions fs).PageSize ≠ 0 then
            ["size=" ++ url.QueryEscape (toString (store.NewListOptions fs).PageSize)]
            else [])) := by
    intro hq
    have hoff : ∀ x : String, url.QueryEscape "offset" ++ "=" ++ x = "offset=" ++ x := by
      intro x
      have h : url.QueryEscape "offset" ++ "=" = "offset=" := by decide
      rw [h]
    have hsize : ∀ x : String, url.QueryEscape "size" ++ "=" ++ x = "size=" ++ x := by
      intro x
      have h : url.QueryEscape "size" ++ "=" = "size=" := by decide
      rw [h]
    have hless : url.stringLess "offset" "size" = true := by decide
    have hne : ("offset" = "size") = False := by simp
    generalize store.NewListOptions fs = opts
    by_cases ho : opts.PageOffset = "" <;> by_cases hz : opts.PageSize = 0 <;>
      simp [listQuery, url.URL.Query, hq, ho, hz, url.Values.Add, url.Values.Encode,
        url.sortByKey, url.insertByKey, hoff, hsize, hless]
  refine ⟨_, hsent, rfl, rfl, rfl, ?_, ?_, ?_, ?_, ?_⟩
  · intro k
    unfold listQuery
    simp only []
    by_cases ho : (store.NewListOptions fs).PageOffset = "" <;>
      by_cases hz : (store.NewListOptions fs).PageSize = 0 <;>
      simp [ho, hz, Values_Has_Add] <;> tauto
  · intro k hk1 hk2
    unfold listQuery
    simp only []
    by_cases ho : (store.NewListOptions fs).PageOffset = "" <;>
      by_cases hz : (store.NewListOptions fs).PageSize = 0 <;>
      simp [ho, hz, Values_lookup_Add, hk1, hk2]
  · unfold listQuery
    simp only []
    by_cases ho : (store.NewListOptions fs).PageOffset = "" <;>
      by_cases hz : (store.NewListOptions fs).PageSize = 0 <;>
      simp [ho, hz, Values_lookup_Add]
  · unfold listQuery
    simp only []
    by_cases ho : (store.NewListOptions fs).PageOffset = "" <;>
      by_cases hz : (store.NewListOptions fs).PageSize = 0 <;>
      simp [ho, hz, Values_lookup_Add]
  · intro hq
    have hraw : (acceptJSON lib (withListQuery lib
        { Method := "GET", URL := u, Header := [], Body := none }
        (store.NewListOptions fs))).URL.RawQuery
        = url.Values.Encode (listQuery lib u (store.NewListOptions fs)) := rfl
    rw [hraw, hexplicit hq]
    refine ⟨rfl, ?_, ?_⟩
    · intro ho hz
      simp [ho, hz]
      rfl
    · intro hz ho
      rw [hz, ho]
      decide

/-- C8, amended, at the inputs of the test `List() should list known resources using
pagination`, where the collection URL `/meshes/demo/traffic-routes` has no query,
and at the mesh name `demo?b=1`, where it carries the parameter `b`. -/
theorem List_query_parameters_witness :
    (∃ r, ((setupStore "").List testLib { ItemType := "SampleTrafficRoute", Items := [] }
        [store.ListByMesh "demo", store.ListByPage 1 "2"]).sent = [r] ∧
      r.URL.Path = "/meshes/demo/traffic-routes" ∧ r.URL.RawQuery = "offset=2&size=1") ∧
    (∃ r, ((setupStore "").List testLib { ItemType := "SampleTrafficRoute", Items := [] }
        [store.ListByMesh "demo"]).sent = [r] ∧ r.URL.RawQuery = "") ∧
    (∃ r, ((setupStore "").List queryLib { ItemType := "SampleTrafficRoute", Items := [] }
        [store.ListByMesh "demo?b=1", store.ListByPage 1 "2"]).sent = [r] ∧
      r.URL.RawQuery = "b=1%2Ftraffic-routes&offset=2&size=1") := by
  refine ⟨?_, ?_, ?_⟩
  · obtain ⟨r, hs, -, hpath, -, -, -, -, -, hno⟩ :=
      List_query_parameters (setupStore "") testLib
        { ItemType := "SampleTrafficRoute", Items := [] }
        [store.ListByMesh "demo", store.ListByPage 1 "2"]
        (rest.NewResourceApi "SampleTrafficRoute" "traffic-routes")
        ⟨"/meshes/demo/traffic-routes", ""⟩ rfl rfl
    exact ⟨r, hs, hpath, (hno rfl).2.2 rfl rfl⟩
  · obtain ⟨r, hs, -, -, -, -, -, -, -, hno⟩ :=
      List_query_parameters (setupStore "") testLib
        { ItemType := "SampleTrafficRoute", Items := [] }
        [store.ListByMesh "demo"]
        (rest.NewResourceApi "SampleTrafficRoute" "traffic-routes")
        ⟨"/meshes/demo/traffic-routes", ""⟩ rfl rfl
    exact ⟨r, hs, (hno rfl).2.1 rfl rfl⟩
  · obtain ⟨r, hs, -, -, hraw, -, -, -, -, -⟩ :=
      List_query_parameters (setupStore "") queryLib
        { ItemType := "SampleTrafficRoute", Items := [] }
        [store.ListByMesh "demo?b=1", store.ListByPage 1 "2"]
        (rest.NewResourceApi "SampleTrafficRoute" "traffic-routes")
        ⟨"/meshes/demo", "b=1/traffic-routes"⟩ rfl rfl
    refine ⟨r, hs, ?_⟩
    rw [hraw]
    decide

/-- C10: for a type with descriptor entry `resourceApi`, every request an operation
hands to the transport has the operation's method and the URL parsed from the
operation's target: `GET` and `Item(opts.Mesh, opts.Name)` for `Get`, `DELETE` and
`Item(opts.Mesh, opts.Name)` for `Delete`, `PUT` and the item URL of the target mesh
and name for `Create` (from the options) and `Update` (from the resource's meta),
`GET` and the path of `List(opts.Mesh)` for `List`; and the request is sent whenever
that URL parses (and, for `Create` and `Update`, the envelope marshals). A
mesh-scoped entry for collection `traffic-routes` renders key `res-1`/`default` as
`/meshes/default/traffic-routes/res-1`, and the mesh entry renders key
`someMesh`/`someMesh` as `/meshes/someMesh`. -/
theorem request_method_and_target (s : remoteStore) (lib : Lib σ)
    (res : model.Resource σ) (rs : model.ResourceList σ)
    (cfs : List store.CreateOptionsFunc) (ufs : List store.UpdateOptionsFunc)
    (gfs : List store.GetOptionsFunc) (lfs : List store.ListOptionsFunc)
    (dfs : List store.DeleteOptionsFunc) (resourceApi listApi : rest.ResourceApi)
    (hapi : s.api.GetResourceApi res.Type_ = Except.ok resourceApi)
    (hlist : s.api.GetResourceApi rs.ItemType = Except.ok listApi) :
    ((∀ q ∈ (s.Get lib res gfs).sent, q.Method = "GET" ∧
        lib.urlParse (resourceApi.Item (store.NewGetOptions gfs).Mesh
          (store.NewGetOptions gfs).Name) = Except.ok q.URL) ∧
      (∀ q ∈ (s.Delete lib res dfs).sent, q.Method = "DELETE" ∧
        lib.urlParse (resourceApi.Item (store.NewDeleteOptions dfs).Mesh
          (store.NewDeleteOptions dfs).Name) = Except.ok q.URL) ∧
      (∀ q ∈ (s.Create lib res cfs).sent, q.Method = "PUT" ∧
        lib.urlParse (resourceApi.Item (store.NewCreateOptions cfs).Mesh
          (store.NewCreateOptions cfs).Name) = Except.ok q.URL) ∧
      (∀ q ∈ (s.Update lib res ufs).sent, q.Method = "PUT" ∧
        lib.urlParse (resourceApi.Item res.Meta.Mesh res.Meta.Name) = Except.ok q.URL) ∧
      (∀ q ∈ (s.List lib rs lfs).sent, q.Method = "GET" ∧
        ∃ u, lib.urlParse (listApi.List (store.NewListOptions lfs).Mesh) = Except.ok u ∧
          q.URL.Path = u.Path)) ∧
    ((∀ u, lib.urlParse (resourceApi.Item (store.NewGetOptions gfs).Mesh
          (store.NewGetOptions gfs).Name) = Except.ok u →
        (s.Get lib res gfs).sent.length = 1) ∧
      (∀ u, lib.urlParse (resourceApi.Item (store.NewDeleteOptions dfs).Mesh
          (store.NewDeleteOptions dfs).Name) = Except.ok u →
        (s.Delete lib res dfs).sent.length = 1) ∧
      (∀ u b, lib.jsonMarshal
          { Meta := ⟨res.Type_, (store.NewCreateOptions cfs).Name,
              (store.NewCreateOptions cfs).Mesh⟩,
            Spec := res.Spec } = Except.ok b →
        lib.urlParse (resourceApi.Item (store.NewCreateOptions cfs).Mesh
          (store.NewCreateOptions cfs).Name) = Except.ok u →
        (s.Create lib res cfs).sent.length = 1) ∧
      (∀ u b, lib.jsonMarshal
          { Meta := ⟨res.Type_, res.Meta.Name, res.Meta.Mesh⟩, Spec := res.Spec }
            = Except.ok b →
        lib.urlParse (resourceApi.Item res.Meta.Mesh res.Meta.Name) = Except.ok u →
        (s.Update lib res ufs).sent.length = 1) ∧
      (∀ u, lib.urlParse (listApi.List (store.NewListOptions lfs).Mesh) = Except.ok u →
        (s.List lib rs lfs).sent.length = 1)) ∧
    ((∀ t, t ≠ "Mesh" → (rest.NewResourceApi t "traffic-routes").Item "default" "res-1"
        = "/meshes/default/traffic-routes/res-1") ∧
      (rest.NewResourceApi "Mesh" "meshes").Item "someMesh" "someMesh" = "/meshes/someMesh" ∧
      ((setupStore "").Get testLib (trafficRoute "" "" "")
          [store.GetByKey "res-1" "default"]).sent.map (fun q => (q.Method, q.URL.Path))
        = [("GET", "/meshes/default/traffic-routes/res-1")] ∧
      ((setupStore "").Get testLib (meshResource "" "")
          [store.GetByKey "someMesh" "someMesh"]).sent.map (fun q => (q.Method, q.URL.Path))
        = [("GET", "/meshes/someMesh")]) := by
  refine ⟨⟨?_, ?_, ?_, ?_, ?_⟩, ⟨?_, ?_, ?_, ?_, ?_⟩, ⟨?_, ?_, ?_, ?_⟩⟩
  · intro q hq
    have hs := eq_singleton_of_mem _ q (Get_sent_length s lib res gfs) hq
    obtain ⟨api2, req, hapi2, hreq, rfl⟩ := Get_sent s lib res gfs q hs
    obtain ⟨hu, hmeth, -, -⟩ := NewRequest_ok lib _ _ _ req hreq
    have he : api2 = resourceApi := by
      have h := hapi2.symm.trans hapi
      simpa using h
    subst he
    exact ⟨hmeth, hu⟩
  · intro q hq
    have hs := eq_singleton_of_mem _ q (Delete_sent_length s lib res dfs) hq
    obtain ⟨api2, req, hapi2, hreq, rfl⟩ := Delete_sent s lib res dfs q hs
    obtain ⟨hu, hmeth, -, -⟩ := NewRequest_ok lib _ _ _ req hreq
    have he : api2 = resourceApi := by
      have h := hapi2.symm.trans hapi
      simpa using h
    subst he
    exact ⟨hmeth, hu⟩
  · intro q hq
    have hs := eq_singleton_of_mem _ q (upsert_sent_length s lib res _) hq
    obtain ⟨api2, b, req, hapi2, -, hreq, rfl⟩ := upsert_sent s lib res _ q hs
    obtain ⟨hu, hmeth, -, -⟩ := NewRequest_ok lib _ _ _ req hreq
    have he : api2 = resourceApi := by
      have h := hapi2.symm.trans hapi
      simpa using h
    subst he
    exact ⟨hmeth, hu⟩
  · intro q hq
    have hs := eq_singleton_of_mem _ q (upsert_sent_length s lib res _) hq
    obtain ⟨api2, b, req, hapi2, -, hreq, rfl⟩ := upsert_sent s lib res _ q hs
    obtain ⟨hu, hmeth, -, -⟩ := NewRequest_ok lib _ _ _ req hreq
    have he : api2 = resourceApi := by
      have h := hapi2.symm.trans hapi
      simpa using h
    subst he
    exact ⟨hmeth, hu⟩
  · intro q hq
    have hs := eq_singleton_of_mem _ q (List_sent_length s lib rs lfs) hq
    obtain ⟨api2, req, hapi2, hreq, rfl⟩ := List_sent s lib rs lfs q hs
    obtain ⟨hu, hmeth, -, -⟩ := NewRequest_ok lib _ _ _ req hreq
    have he : api2 = listApi := by
      have h := hapi2.symm.trans hlist
      simpa using h
    subst he
    exact ⟨hmeth, req.URL, hu, rfl⟩
  · intro u hu
    unfold remoteStore.Get
    simp only [hapi, NewRequest_of_parse lib _ _ _ u hu]
    repeat' split
    all_goals simp [doRequest_sent]
  · intro u hu
    unfold remoteStore.Delete
    simp only [hapi, NewRequest_of_parse lib _ _ _ u hu]
    repeat' split
    all_goals simp [doRequest_sent]
  · intro u b hm hu
    unfold remoteStore.Create remoteStore.upsert
    simp only [hapi, hm, NewRequest_of_parse lib _ _ _ u hu]
    repeat' split
    all_goals simp [doRequest_sent]
  · intro u b hm hu
    unfold remoteStore.Update remoteStore.upsert
    simp only [hapi, hm, NewRequest_of_parse lib _ _ _ u hu]
    repeat' split
    all_goals simp [doRequest_sent]
  · intro u hu
    unfold remoteStore.List
    simp only [hlist, NewRequest_of_parse lib _ _ _ u hu]
    repeat' split
    all_goals simp [doRequest_sent]
  · intro t ht
    simp only [rest.NewResourceApi, ht, if_false]
    decide
  · decide
  · decide
  · decide

/-- C10 at the stores of the test suite: `Get` of a traffic route by key
`res-1`/`default` and `Delete` of a mesh by key `mesh-1`/`mesh-1`. -/
theorem request_method_and_target_witness :
    (testLib.urlParse "/meshes/default/traffic-routes/res-1"
        = Except.ok ⟨"/meshes/default/traffic-routes/res-1", ""⟩) ∧
    ((setupStore "").Get testLib (trafficRoute "" "" "")
        [store.GetByKey "res-1" "default"]).sent.length = 1 ∧
    ((setupStore "").Get testLib (trafficRoute "" "" "")
        [store.GetByKey "res-1" "default"]).sent.map (fun q => (q.Method, q.URL.Path))
      = [("GET", "/meshes/default/traffic-routes/res-1")] :=
  have h := request_method_and_target (setupStore "") testLib (trafficRoute "" "" "")
    { ItemType := "Mesh", Items := [] } [] [] [store.GetByKey "res-1" "default"] [] []
    (rest.NewResourceApi "SampleTrafficRoute" "traffic-routes")
    (rest.NewResourceApi "Mesh" "meshes") rfl rfl
  ⟨rfl, h.2.1.1 ⟨"/meshes/default/traffic-routes/res-1", ""⟩ rfl, h.2.2.2.2.1⟩

end Requests

/-! ## What an operation depends on and what it changes -/

section Frame

variable {σ : Type}

/-- C11: `Create` takes its target from the options and not from the resource. For
two resources of the same type and spec (whatever their prior meta), the same
options and the same store, `Create` hands the same request to the transport and
returns the same error; when it succeeds both resources end up equal, with the
meta made of the name and mesh of the options and the empty version. The request
has the URL parsed from the item URL of the options' mesh and name, and as body
the marshalled envelope of the type, the options' name and mesh, and the spec. -/
theorem Create_ignores_prior_meta (s : remoteStore) (lib : Lib σ)
    (res1 res2 : model.Resource σ) (fs : List store.CreateOptionsFunc)
    (ht : res1.Type_ = res2.Type_) (hsp : res1.Spec = res2.Spec) :
    (s.Create lib res1 fs).sent = (s.Create lib res2 fs).sent ∧
    (s.Create lib res1 fs).err = (s.Create lib res2 fs).err ∧
    ((s.Create lib res1 fs).err = none →
      (s.Create lib res1 fs).res = (s.Create lib res2 fs).res ∧
      (s.Create lib res1 fs).res.Meta =
        { Name := (store.NewCreateOptions fs).Name, Mesh := (store.NewCreateOptions fs).Mesh,
          Version := "" }) ∧
    (∀ q ∈ (s.Create lib res1 fs).sent,
      (∃ resourceApi, s.api.GetResourceApi res1.Type_ = Except.ok resourceApi ∧
        lib.urlParse (resourceApi.Item (store.NewCreateOptions fs).Mesh
          (store.NewCreateOptions fs).Name) = Except.ok q.URL) ∧
      (∃ b, lib.jsonMarshal
          { Meta := ⟨res1.Type_, (store.NewCreateOptions fs).Name,
              (store.NewCreateOptions fs).Mesh⟩,
            Spec := res1.Spec } = Except.ok b ∧ q.Body = some b)) := by
  have hlast : ∀ q ∈ (s.Create lib res1 fs).sent,
      (∃ resourceApi, s.api.GetResourceApi res1.Type_ = Except.ok resourceApi ∧
        lib.urlParse (resourceApi.Item (store.NewCreateOptions fs).Mesh
          (store.NewCreateOptions fs).Name) = Except.ok q.URL) ∧
      (∃ b, lib.jsonMarshal
          { Meta := ⟨res1.Type_, (store.NewCreateOptions fs).Name,
              (store.NewCreateOptions fs).Mesh⟩,
            Spec := res1.Spec } = Except.ok b ∧ q.Body = some b) := by
    intro q hq
    have hs := eq_singleton_of_mem _ q (upsert_sent_length s lib res1 _) hq
    obtain ⟨resourceApi, b, req, hapi, hm, hreq, rfl⟩ := upsert_sent s lib res1 _ q hs
    obtain ⟨hu, -, -, hbody⟩ := NewRequest_ok lib _ _ _ req hreq
    exact ⟨⟨resourceApi, hapi, hu⟩, ⟨b, hm, hbody⟩⟩
  refine ⟨?_, ?_, ?_, hlast⟩
  all_goals
    obtain ⟨t, m1, sp⟩ := res1
    obtain ⟨t2, m2, sp2⟩ := res2
    simp only at ht hsp
    subst ht hsp
    unfold remoteStore.Create remoteStore.upsert
    simp only []
    cases hapi : s.api.GetResourceApi t with
    | error e => simp
    | ok resourceApi =>
      simp only []
      cases hm : lib.jsonMarshal
          { Meta := ⟨t, (store.NewCreateOptions fs).Name, (store.NewCreateOptions fs).Mesh⟩,
            Spec := sp } with
      | error e => simp
      | ok b =>
        simp only []
        cases hreq : http.NewRequest lib "PUT"
            (resourceApi.Item (store.NewCreateOptions fs).Mesh (store.NewCreateOptions fs).Name)
            (some b) with
        | error e => simp
        | ok req =>
          simp only []
          cases herr : (s.doRequest lib
              { req with Header :=
                  http.Header.Set lib req.Header "content-type" "application/json" }).err with
          | some e => simp
          | none =>
            simp only []
            split <;> simp [remoteMeta]

/-- C11 at two traffic routes that differ in their prior meta only: `Create` by key
`res-1`/`default` sends the same request for both and leaves both with the meta
`res-1`, `default`, empty version. -/
theorem Create_ignores_prior_meta_witness :
    ((setupStore "").Create testLib (trafficRoute "old" "other" "/some-path")
        [store.CreateByKey "res-1" "default"]).sent
      = ((setupStore "").Create testLib (trafficRoute "" "" "/some-path")
        [store.CreateByKey "res-1" "default"]).sent ∧
    ((setupStore "").Create testLib (trafficRoute "old" "other" "/some-path")
        [store.CreateByKey "res-1" "default"]).res.Meta = ⟨"res-1", "default", ""⟩ :=
  have h := Create_ignores_prior_meta (setupStore "") testLib
    (trafficRoute "old" "other" "/some-path") (trafficRoute "" "" "/some-path")
    [store.CreateByKey "res-1" "default"] rfl rfl
  ⟨h.1, (h.2.2.1 rfl).2⟩

/-- C12: the options passed to `Update` have no effect: for any two option lists the
outcome of `Update` on the same resource and store is the same, that is the same
request handed to the transport, the same returned error and the same final
resource. -/
theorem Update_options_have_no_effect (s : remoteStore) (lib : Lib σ)
    (res : model.Resource σ) (fs1 fs2 : List store.UpdateOptionsFunc) :
    s.Update lib res fs1 = s.Update lib res fs2 ∧
    (s.Update lib res fs1).sent = (s.Update lib res fs2).sent ∧
    (s.Update lib res fs1).err = (s.Update lib res fs2).err ∧
    (s.Update lib res fs1).res = (s.Update lib res fs2).res :=
  ⟨rfl, rfl, rfl, rfl⟩

/-- C13, as stated, fails on `Get` and `Delete` at status 404: when the body of the
response cannot be read, `doRequest` returns the status code together with the
read error, and both operations turn status 404 into the not-found error
instead of returning the read error. -/
theorem Get_Delete_404_body_read_error_is_not_found :
    ((setupBrokenBodyStore 404 (GoError.external "unexpected EOF")).Get testLib
        (meshResource "" "") [store.GetByKey "test" "test"]).err
      = some (GoError.ResourceNotFound "Mesh" "test" "test") ∧
    ((setupBrokenBodyStore 404 (GoError.external "unexpected EOF")).Get testLib
        (meshResource "" "") [store.GetByKey "test" "test"]).err
      ≠ some (GoError.external "unexpected EOF") ∧
    ((setupBrokenBodyStore 404 (GoError.external "unexpected EOF")).Delete testLib
        (trafficRoute "" "" "") [store.DeleteByKey "tr-1" "mesh-1"]).err
      = some (GoError.ResourceNotFound "SampleTrafficRoute" "tr-1" "mesh-1") ∧
    ((setupBrokenBodyStore 404 (GoError.external "unexpected EOF")).Delete testLib
        (trafficRoute "" "" "") [store.DeleteByKey "tr-1" "mesh-1"]).err
      ≠ some (GoError.external "unexpected EOF") := by
  decide

/-- C13, amended: when the transport answers the request with a response whose body
cannot be read, the read error being `e`, then `Create`, `Update` and `List` return
exactly `e` at every status code, and `Get` and `Delete` return exactly `e` at every
status code other than 404; at status 404 `Get` and `Delete` return the not-found
error of the resource type and of the name and mesh of the call options. -/
theorem body_read_error_returned (s : remoteStore) (lib : Lib σ)
    (res : model.Resource σ) (rs : model.ResourceList σ)
    (cfs : List store.CreateOptionsFunc) (ufs : List store.UpdateOptionsFunc)
    (gfs : List store.GetOptionsFunc) (lfs : List store.ListOptionsFunc)
    (dfs : List store.DeleteOptionsFunc) (resp : http.Response) (e : GoError)
    (hb : resp.Body = Except.error e) :
    (∀ r, (s.Create lib res cfs).sent = [r] → s.client.Do r = Except.ok resp →
      (s.Create lib res cfs).err = some e) ∧
    (∀ r, (s.Update lib res ufs).sent = [r] → s.client.Do r = Except.ok resp →
      (s.Update lib res ufs).err = some e) ∧
    (∀ r, (s.List lib rs lfs).sent = [r] → s.client.Do r = Except.ok resp →
      (s.List lib rs lfs).err = some e) ∧
    (∀ r, (s.Get lib res gfs).sent = [r] → s.client.Do r = Except.ok resp →
      (resp.StatusCode ≠ 404 → (s.Get lib res gfs).err = some e) ∧
      (resp.StatusCode = 404 →
        (s.Get lib res gfs).err = some (store.ErrorResourceNotFound res.Type_
          (store.NewGetOptions gfs).Name (store.NewGetOptions gfs).Mesh))) ∧
    (∀ r, (s.Delete lib res dfs).sent = [r] → s.client.Do r = Except.ok resp →
      (resp.StatusCode ≠ 404 → (s.Delete lib res dfs).err = some e) ∧
      (resp.StatusCode = 404 →
        (s.Delete lib res dfs).err = some (store.ErrorResourceNotFound res.Type_
          (store.NewDeleteOptions dfs).Name (store.NewDeleteOptions dfs).Mesh))) := by
  refine ⟨?_, ?_, ?_, ?_, ?_⟩
  · intro r hs hdo
    obtain ⟨resourceApi, body, req, hapi, hm, hreq, rfl⟩ := upsert_sent s lib res _ r hs
    have hrun := doRequest_body_error s lib (contentTypeJSON lib req) resp e hdo hb
    unfold contentTypeJSON at hrun
    unfold remoteStore.Create remoteStore.upsert
    simp only [hapi, hm, hreq, hrun]
  · intro r hs hdo
    obtain ⟨resourceApi, body, req, hapi, hm, hreq, rfl⟩ := upsert_sent s lib res _ r hs
    have hrun := doRequest_body_error s lib (contentTypeJSON lib req) resp e hdo hb
    unfold contentTypeJSON at hrun
    unfold remoteStore.Update remoteStore.upsert
    simp only [hapi, hm, hreq, hrun]
  · intro r hs hdo
    obtain ⟨resourceApi, req, hapi, hreq, rfl⟩ := List_sent s lib rs lfs r hs
    have hrun := doRequest_body_error s lib _ resp e hdo hb
    unfold withListQuery at hrun
    unfold remoteStore.List
    simp only [hapi, hreq, hrun]
  · intro r hs hdo
    obtain ⟨resourceApi, req, hapi, hreq, rfl⟩ := Get_sent s lib res gfs r hs
    have hrun := doRequest_body_error s lib req resp e hdo hb
    unfold remoteStore.Get
    simp only [hapi, hreq, hrun]
    constructor
    · intro h404
      simp [h404]
    · intro h404
      simp [h404]
  · intro r hs hdo
    obtain ⟨resourceApi, req, hapi, hreq, rfl⟩ := Delete_sent s lib res dfs r hs
    have hrun := doRequest_body_error s lib req resp e hdo hb
    unfold remoteStore.Delete
    simp only [hapi, hreq, hrun]
    constructor
    · intro h404
      simp [h404]
    · intro h404
      simp [h404]

/-- C13, amended, at a transport whose response body cannot be read: at status 500
each of the five operations returns the read error itself; at status 404 `Create`,
`Update` and `List` still return it, and `Get` and `Delete` return the not-found
error. -/
theorem body_read_error_returned_witness :
    (((setupBrokenBodyStore 500 (GoError.external "unexpected EOF")).Create testLib
          (meshResource "test" "test") [store.CreateByKey "test" "test"]).err
        = some (GoError.external "unexpected EOF") ∧
      ((setupBrokenBodyStore 500 (GoError.external "unexpected EOF")).Update testLib
          (meshResource "test" "test") []).err
        = some (GoError.external "unexpected EOF") ∧
      ((setupBrokenBodyStore 500 (GoError.external "unexpected EOF")).List testLib
          { ItemType := "Mesh", Items := [] } []).err
        = some (GoError.external "unexpected EOF") ∧
      ((setupBrokenBodyStore 500 (GoError.external "unexpected EOF")).Get testLib
          (meshResource "test" "test") [store.GetByKey "test" "test"]).err
        = some (GoError.external "unexpected EOF") ∧
      ((setupBrokenBodyStore 500 (GoError.external "unexpected EOF")).Delete testLib
          (meshResource "test" "test") [store.DeleteByKey "tr-1" "mesh-1"]).err
        = some (GoError.external "unexpected EOF")) ∧
    (((setupBrokenBodyStore 404 (GoError.external "unexpected EOF")).Create testLib
          (meshResource "test" "test") [store.CreateByKey "test" "test"]).err
        = some (GoError.external "unexpected EOF") ∧
      ((setupBrokenBodyStore 404 (GoError.external "unexpected EOF")).Update testLib
          (meshResource "test" "test") []).err
        = some (GoError.external "unexpected EOF") ∧
      ((setupBrokenBodyStore 404 (GoError.external "unexpected EOF")).List testLib
          { ItemType := "Mesh", Items := [] } []).err
        = some (GoError.external "unexpected EOF") ∧
      ((setupBrokenBodyStore 404 (GoError.external "unexpected EOF")).Get testLib
          (meshResource "test" "test") [store.GetByKey "test" "test"]).err
        = some (store.ErrorResourceNotFound "Mesh" "test" "test") ∧
      ((setupBrokenBodyStore 404 (GoError.external "unexpected EOF")).Delete testLib
          (meshResource "test" "test") [store.DeleteByKey "tr-1" "mesh-1"]).err
        = some (store.ErrorResourceNotFound "Mesh" "tr-1" "mesh-1")) :=
  have h := body_read_error_returned
    (setupBrokenBodyStore 500 (GoError.external "unexpected EOF")) testLib
    (meshResource "test" "test") { ItemType := "Mesh", Items := [] }
    [store.CreateByKey "test" "test"] [] [store.GetByKey "test" "test"] []
    [store.DeleteByKey "tr-1" "mesh-1"]
    { StatusCode := 500, Body := Except.error (GoError.external "unexpected EOF") }
    (GoError.external "unexpected EOF") rfl
  have g := body_read_error_returned
    (setupBrokenBodyStore 404 (GoError.external "unexpected EOF")) testLib
    (meshResource "test" "test") { ItemType := "Mesh", Items := [] }
    [store.CreateByKey "test" "test"] [] [store.GetByKey "test" "test"] []
    [store.DeleteByKey "tr-1" "mesh-1"]
    { StatusCode := 404, Body := Except.error (GoError.external "unexpected EOF") }
    (GoError.external "unexpected EOF") rfl
  ⟨⟨h.1 _ rfl rfl, h.2.1 _ rfl rfl, h.2.2.1 _ rfl rfl,
    (h.2.2.2.1 _ rfl rfl).1 (by decide), (h.2.2.2.2 _ rfl rfl).1 (by decide)⟩,
   ⟨g.1 _ rfl rfl, g.2.1 _ rfl rfl, g.2.2.1 _ rfl rfl,
    (g.2.2.2.1 _ rfl rfl).2 rfl, (g.2.2.2.2 _ rfl rfl).2 rfl⟩⟩

/-- C14: no retries. Every operation hands at most one request to the transport,
whatever the input and whatever the transport answers; and it hands exactly one
whenever the resource type is known and the request is constructed (for `Create`
and `Update`: the envelope marshals and `http.NewRequest` succeeds). -/
theorem at_most_one_request (s : remoteStore) (lib : Lib σ)
    (res : model.Resource σ) (rs : model.ResourceList σ)
    (cfs : List store.CreateOptionsFunc) (ufs : List store.UpdateOptionsFunc)
    (gfs : List store.GetOptionsFunc) (lfs : List store.ListOptionsFunc)
    (dfs : List store.DeleteOptionsFunc) :
    ((s.Create lib res cfs).sent.length ≤ 1 ∧ (s.Update lib res ufs).sent.length ≤ 1 ∧
      (s.Get lib res gfs).sent.length ≤ 1 ∧ (s.List lib rs lfs).sent.length ≤ 1 ∧
      (s.Delete lib res dfs).sent.length ≤ 1) ∧
    (∀ resourceApi, s.api.GetResourceApi res.Type_ = Except.ok resourceApi →
      (∀ b req, lib.jsonMarshal
            { Meta := ⟨res.Type_, (store.NewCreateOptions cfs).Name,
                (store.NewCreateOptions cfs).Mesh⟩,
              Spec := res.Spec } = Except.ok b →
          http.NewRequest lib "PUT" (resourceApi.Item (store.NewCreateOptions cfs).Mesh
            (store.NewCreateOptions cfs).Name) (some b) = Except.ok req →
          (s.Create lib res cfs).sent.length = 1) ∧
      (∀ b req, lib.jsonMarshal
            { Meta := ⟨res.Type_, res.Meta.Name, res.Meta.Mesh⟩, Spec := res.Spec }
              = Except.ok b →
          http.NewRequest lib "PUT" (resourceApi.Item res.Meta.Mesh res.Meta.Name) (some b)
            = Except.ok req →
          (s.Update lib res ufs).sent.length = 1) ∧
      (∀ req, http.NewRequest lib "GET" (resourceApi.Item (store.NewGetOptions gfs).Mesh
            (store.NewGetOptions gfs).Name) none = Except.ok req →
          (s.Get lib res gfs).sent.length = 1) ∧
      (∀ req, http.NewRequest lib "DELETE" (resourceApi.Item (store.NewDeleteOptions dfs).Mesh
            (store.NewDeleteOptions dfs).Name) none = Except.ok req →
          (s.Delete lib res dfs).sent.length = 1)) ∧
    (∀ resourceApi, s.api.GetResourceApi rs.ItemType = Except.ok resourceApi →
      ∀ req, http.NewRequest lib "GET" (resourceApi.List (store.NewListOptions lfs).Mesh)
          none = Except.ok req →
        (s.List lib rs lfs).sent.length = 1) := by
  refine ⟨⟨upsert_sent_length s lib res _, upsert_sent_length s lib res _,
    Get_sent_length s lib res gfs, List_sent_length s lib rs lfs,
    Delete_sent_length s lib res dfs⟩, ?_, ?_⟩
  · intro resourceApi hapi
    refine ⟨?_, ?_, ?_, ?_⟩
    · intro b req hm hreq
      unfold remoteStore.Create remoteStore.upsert
      simp only [hapi, hm, hreq]
      repeat' split
      all_goals simp [doRequest_sent]
    · intro b req hm hreq
      unfold remoteStore.Update remoteStore.upsert
      simp only [hapi, hm, hreq]
      repeat' split
      all_goals simp [doRequest_sent]
    · intro req hreq
      unfold remoteStore.Get
      simp only [hapi, hreq]
      repeat' split
      all_goals simp [doRequest_sent]
    · intro req hreq
      unfold remoteStore.Delete
      simp only [hapi, hreq]
      repeat' split
      all_goals simp [doRequest_sent]
  · intro resourceApi hapi req hreq
    unfold remoteStore.List
    simp only [hapi, hreq]
    repeat' split
    all_goals simp [doRequest_sent]

/-- C14 at the stores of the test suite: one request on a successful `Get`, one on
a `Create` that the server refuses with status 400, one on a `Delete` whose
transport fails. -/
theorem at_most_one_request_witness :
    ((setupStore "").Get testLib (trafficRoute "" "" "")
        [store.GetByKey "res-1" "default"]).sent.length = 1 ∧
    ((setupErrorStore 400 "some error from the server").Create testLib
        (meshResource "" "") [store.CreateByKey "test" "test"]).sent.length = 1 ∧
    ((setupFailingStore (GoError.external "connection refused")).Delete testLib
        (trafficRoute "" "" "") [store.DeleteByKey "tr-1" "mesh-1"]).sent.length = 1 :=
  ⟨(at_most_one_request (setupStore "") testLib (trafficRoute "" "" "")
      { ItemType := "Mesh", Items := [] } [] [] [store.GetByKey "res-1" "default"] [] []).2.1
      _ rfl |>.2.2.1 _ rfl,
   (at_most_one_request (setupErrorStore 400 "some error from the server") testLib
      (meshResource "" "") { ItemType := "Mesh", Items := [] }
      [store.CreateByKey "test" "test"] [] [] [] []).2.1 _ rfl |>.1 _ _ rfl rfl,
   (at_most_one_request (setupFailingStore (GoError.external "connection refused")) testLib
      (trafficRoute "" "" "") { ItemType := "Mesh", Items := [] } [] [] [] []
      [store.DeleteByKey "tr-1" "mesh-1"]).2.1 _ rfl |>.2.2.2 _ rfl⟩

theorem upsert_frame (s : remoteStore) (lib : Lib σ) (res : model.Resource σ)
    (meta : rest.ResourceMeta) :
    ((s.upsert lib res meta).err ≠ none → (s.upsert lib res meta).res = res) ∧
    ((s.upsert lib res meta).err = none →
      (s.upsert lib res meta).res.Spec = res.Spec ∧
      (s.upsert lib res meta).res.Type_ = res.Type_) := by
  unfold remoteStore.upsert
  cases hapi : s.api.GetResourceApi res.Type_ with
  | error e => simp
  | ok resourceApi =>
    simp only []
    cases hm : lib.jsonMarshal { Meta := meta, Spec := res.Spec } with
    | error e => simp
    | ok b =>
      simp only []
      cases hreq : http.NewRequest lib "PUT" (resourceApi.Item meta.Mesh meta.Name) (some b) with
      | error e => simp
      | ok req =>
        simp only []
        cases herr : (s.doRequest lib
            { req with Header :=
                http.Header.Set lib req.Header "content-type" "application/json" }).err with
        | some e => simp
        | none =>
          simp only []
          split <;> simp

theorem Delete_frame (s : remoteStore) (lib : Lib σ) (res : model.Resource σ)
    (fs : List store.DeleteOptionsFunc) : (s.Delete lib res fs).res = res := by
  unfold remoteStore.Delete
  cases hapi : s.api.GetResourceApi res.Type_ with
  | error e => simp
  | ok resourceApi =>
    simp only []
    cases hreq : http.NewRequest lib "DELETE"
        (resourceApi.Item (store.NewDeleteOptions fs).Mesh (store.NewDeleteOptions fs).Name)
        none with
    | error e => simp
    | ok req =>
      simp only []
      cases herr : (s.doRequest lib req).err with
      | some e =>
        simp only []
        split <;> rfl
      | none =>
        simp only []
        split <;> rfl

/-- C15: when `Create` or `Update` returns an error, whatever its kind, the caller's
resource after the call is the resource before the call (type, meta and spec);
when `Create` or `Update` succeeds, spec and type are unchanged and only the meta
is written; `Delete` leaves the resource as it was, on success and on failure. -/
theorem resource_unchanged_on_error (s : remoteStore) (lib : Lib σ)
    (res : model.Resource σ) (cfs : List store.CreateOptionsFunc)
    (ufs : List store.UpdateOptionsFunc) (dfs : List store.DeleteOptionsFunc) :
    ((s.Create lib res cfs).err ≠ none → (s.Create lib res cfs).res = res) ∧
    ((s.Update lib res ufs).err ≠ none → (s.Update lib res ufs).res = res) ∧
    ((s.Create lib res cfs).err = none →
      (s.Create lib res cfs).res.Spec = res.Spec ∧
      (s.Create lib res cfs).res.Type_ = res.Type_) ∧
    ((s.Update lib res ufs).err = none →
      (s.Update lib res ufs).res.Spec = res.Spec ∧
      (s.Update lib res ufs).res.Type_ = res.Type_) ∧
    (s.Delete lib res dfs).res = res :=
  ⟨(upsert_frame s lib res _).1, (upsert_frame s lib res _).1, (upsert_frame s lib res _).2,
    (upsert_frame s lib res _).2, Delete_frame s lib res dfs⟩

/-- C15 at the stores of the test suite: a `Create` refused with status 400 leaves
the resource as it was, a successful `Update` keeps spec and type, and a `Delete`
answered with 404 leaves the resource as it was. -/
theorem resource_unchanged_on_error_witness :
    ((setupErrorStore 400 "some error from the server").Create testLib
        (trafficRoute "old" "other" "/some-path") [store.CreateByKey "res-1" "default"]).res
      = trafficRoute "old" "other" "/some-path" ∧
    (((setupStore "").Update testLib (trafficRoute "res-1" "default" "/some-path") []).res.Spec
        = "/some-path" ∧
      ((setupStore "").Update testLib (trafficRoute "res-1" "default" "/some-path") []).res.Type_
        = "SampleTrafficRoute") ∧
    ((setupErrorStore 404 notFoundJson).Delete testLib
        (trafficRoute "old" "other" "/some-path") [store.DeleteByKey "tr-1" "mesh-1"]).res
      = trafficRoute "old" "other" "/some-path" :=
  ⟨(resource_unchanged_on_error (setupErrorStore 400 "some error from the server") testLib
      (trafficRoute "old" "other" "/some-path") [store.CreateByKey "res-1" "default"] []
      []).1 (by decide),
   (resource_unchanged_on_error (setupStore "") testLib
      (trafficRoute "res-1" "default" "/some-path") [] [] []).2.2.2.1 (by decide),
   (resource_unchanged_on_error (setupErrorStore 404 notFoundJson) testLib
      (trafficRoute "old" "other" "/some-path") [] []
      [store.DeleteByKey "tr-1" "mesh-1"]).2.2.2.2⟩

theorem statusError_404 (b : String) : statusError 404 b = GoError.Errorf ("(404): " ++ b) := by
  have h : "(" ++ toString (404 : Int) ++ "): " = "(404): " := by decide
  unfold statusError
  rw [h]

/-- C16: not-found comes from `Get` and `Delete` only. When the transport answers
the request of `Create`, `Update` or `List` with status 404 and a readable body, the
returned error is not a resource-not-found error: it is the structured error of
the body when the body decodes to one with non-empty title and details, and the
generic error `(404): <body>` otherwise. -/
theorem not_found_only_from_Get_and_Delete (s : remoteStore) (lib : Lib σ)
    (res : model.Resource σ) (rs : model.ResourceList σ)
    (cfs : List store.CreateOptionsFunc) (ufs : List store.UpdateOptionsFunc)
    (lfs : List store.ListOptionsFunc) (resp : http.Response) (b : String)
    (hst : resp.StatusCode = 404) (hb : resp.Body = Except.ok b) :
    (∀ r, (s.Create lib res cfs).sent = [r] → s.client.Do r = Except.ok resp →
      store.IsResourceNotFound (s.Create lib res cfs).err = false ∧
      (∀ e, lib.jsonUnmarshalError b = some e → e.Title ≠ "" → e.Details ≠ "" →
        (s.Create lib res cfs).err = some (GoError.Kuma e)) ∧
      ((¬ ∃ e, lib.jsonUnmarshalError b = some e ∧ e.Title ≠ "" ∧ e.Details ≠ "") →
        (s.Create lib res cfs).err = some (GoError.Errorf ("(404): " ++ b)))) ∧
    (∀ r, (s.Update lib res ufs).sent = [r] → s.client.Do r = Except.ok resp →
      store.IsResourceNotFound (s.Update lib res ufs).err = false ∧
      (∀ e, lib.jsonUnmarshalError b = some e → e.Title ≠ "" → e.Details ≠ "" →
        (s.Update lib res ufs).err = some (GoError.Kuma e)) ∧
      ((¬ ∃ e, lib.jsonUnmarshalError b = some e ∧ e.Title ≠ "" ∧ e.Details ≠ "") →
        (s.Update lib res ufs).err = some (GoError.Errorf ("(404): " ++ b)))) ∧
    (∀ r, (s.List lib rs lfs).sent = [r] → s.client.Do r = Except.ok resp →
      store.IsResourceNotFound (s.List lib rs lfs).err = false ∧
      (∀ e, lib.jsonUnmarshalError b = some e → e.Title ≠ "" → e.Details ≠ "" →
        (s.List lib rs lfs).err = some (GoError.Kuma e)) ∧
      ((¬ ∃ e, lib.jsonUnmarshalError b = some e ∧ e.Title ≠ "" ∧ e.Details ≠ "") →
        (s.List lib rs lfs).err = some (GoError.Errorf ("(404): " ++ b)))) := by
  have hcases : (∃ e, structuredError lib 404 b = some e ∧
        lib.jsonUnmarshalError b = some e ∧ e.Title ≠ "" ∧ e.Details ≠ "") ∨
      (structuredError lib 404 b = none ∧
        ¬ ∃ e, lib.jsonUnmarshalError b = some e ∧ e.Title ≠ "" ∧ e.Details ≠ "") := by
    by_cases h : ∃ e, lib.jsonUnmarshalError b = some e ∧ e.Title ≠ "" ∧ e.Details ≠ ""
    · obtain ⟨e, hp, ht, hd⟩ := h
      exact Or.inl ⟨e, structuredError_some lib 404 b e (by decide) hp ht hd, hp, ht, hd⟩
    · exact Or.inr ⟨structuredError_none lib 404 b (fun hc => h hc.2), h⟩
  have key : ∀ (err : Option GoError),
      (∀ e, structuredError lib 404 b = some e → err = some (GoError.Kuma e)) →
      (structuredError lib 404 b = none → err = some (GoError.Errorf ("(404): " ++ b))) →
      store.IsResourceNotFound err = false ∧
      (∀ e, lib.jsonUnmarshalError b = some e → e.Title ≠ "" → e.Details ≠ "" →
        err = some (GoError.Kuma e)) ∧
      ((¬ ∃ e, lib.jsonUnmarshalError b = some e ∧ e.Title ≠ "" ∧ e.Details ≠ "") →
        err = some (GoError.Errorf ("(404): " ++ b))) := by
    intro err h1 h2
    rcases hcases with ⟨e, hse, hp, ht, hd⟩ | ⟨hse, hno⟩
    · have he := h1 e hse
      refine ⟨by rw [he]; rfl, ?_, ?_⟩
      · intro e2 hp2 _ _
        rw [hp] at hp2
        cases hp2
        exact he
      · intro hno
        exact absurd ⟨e, hp, ht, hd⟩ hno
    · have he := h2 hse
      refine ⟨by rw [he]; rfl, ?_, fun _ => he⟩
      intro e2 hp2 ht2 hd2
      exact absurd ⟨e2, hp2, ht2, hd2⟩ hno
  refine ⟨?_, ?_, ?_⟩
  · intro r hs hdo
    obtain ⟨resourceApi, body, req, hapi, hm, hreq, rfl⟩ := upsert_sent s lib res _ r hs
    have hrun := doRequest_response s lib (contentTypeJSON lib req) resp b hdo hb
    rw [hst] at hrun
    unfold contentTypeJSON at hrun
    apply key
    · intro e hse
      rw [hse] at hrun
      unfold remoteStore.Create remoteStore.upsert
      simp only [hapi, hm, hreq, hrun]
      simp
    · intro hse
      rw [hse] at hrun
      unfold remoteStore.Create remoteStore.upsert
      simp only [hapi, hm, hreq, hrun]
      simp [statusError_404]
  · intro r hs hdo
    obtain ⟨resourceApi, body, req, hapi, hm, hreq, rfl⟩ := upsert_sent s lib res _ r hs
    have hrun := doRequest_response s lib (contentTypeJSON lib req) resp b hdo hb
    rw [hst] at hrun
    unfold contentTypeJSON at hrun
    apply key
    · intro e hse
      rw [hse] at hrun
      unfold remoteStore.Update remoteStore.upsert
      simp only [hapi, hm, hreq, hrun]
      simp
    · intro hse
      rw [hse] at hrun
      unfold remoteStore.Update remoteStore.upsert
      simp only [hapi, hm, hreq, hrun]
      simp [statusError_404]
  · intro r hs hdo
    obtain ⟨resourceApi, req, hapi, hreq, rfl⟩ := List_sent s lib rs lfs r hs
    have hrun := doRequest_response s lib _ resp b hdo hb
    rw [hst] at hrun
    unfold withListQuery at hrun
    apply key
    · intro e hse
      rw [hse] at hrun
      unfold remoteStore.List
      simp only [hapi, hreq, hrun]
      simp
    · intro hse
      rw [hse] at hrun
      unfold remoteStore.List
      simp only [hapi, hreq, hrun]
      simp [statusError_404]

/-- C16 at stores that answer 404: with the structured not-found body `Create` and
`List` return that structured error, with a plain body `Update` returns the generic
error, and none of them is a not-found error. -/
theorem not_found_only_from_Get_and_Delete_witness :
    ((setupErrorStore 404 notFoundJson).Create testLib (meshResource "" "")
        [store.CreateByKey "test" "test"]).err = some (GoError.Kuma notFoundError) ∧
    store.IsResourceNotFound ((setupErrorStore 404 notFoundJson).List testLib
        { ItemType := "Mesh", Items := [] } []).err = false ∧
    ((setupErrorStore 404 "page not found").Update testLib (meshResource "test" "test")
        []).err = some (GoError.Errorf "(404): page not found") :=
  have h := not_found_only_from_Get_and_Delete (setupErrorStore 404 notFoundJson) testLib
    (meshResource "" "") { ItemType := "Mesh", Items := [] }
    [store.CreateByKey "test" "test"] [] []
    { StatusCode := 404, Body := Except.ok notFoundJson } notFoundJson rfl rfl
  have g := not_found_only_from_Get_and_Delete (setupErrorStore 404 "page not found") testLib
    (meshResource "test" "test") { ItemType := "Mesh", Items := [] } [] [] []
    { StatusCode := 404, Body := Except.ok "page not found" } "page not found" rfl rfl
  ⟨(h.1 _ rfl rfl).2.1 notFoundError rfl (by decide) (by decide),
   (h.2.2 _ rfl rfl).1,
   (g.2.1 _ rfl rfl).2.2 (by decide)⟩

/-- C17, as stated, fails: for `List` with `ListByPage(1, "2")` the raw query of the
request is `offset=2&size=1`, the keys in sorted order as `Values.Encode` writes
them, and not `size=1&offset=2`. -/
theorem List_raw_query_is_not_size_first :
    ((setupStore "").List testLib { ItemType := "SampleTrafficRoute", Items := [] }
        [store.ListByMesh "demo", store.ListByPage 1 "2"]).sent.map
        (fun q => q.URL.RawQuery) = ["offset=2&size=1"] ∧
    ((setupStore "").List testLib { ItemType := "SampleTrafficRoute", Items := [] }
        [store.ListByMesh "demo", store.ListByPage 1 "2"]).sent.map
        (fun q => q.URL.RawQuery) ≠ ["size=1&offset=2"] := by
  decide

/-- C17, amended: for `List` whose options give page size 1 and page offset `2`
(as `ListByPage(1, "2")` does), on a collection URL that has no query string of
its own, the raw query of the request handed to the transport is exactly
`offset=2&size=1`. -/
theorem List_raw_query_sorted (s : remoteStore) (lib : Lib σ) (rs : model.ResourceList σ)
    (fs : List store.ListOptionsFunc) (r : http.Request)
    (hsz : (store.NewListOptions fs).PageSize = 1)
    (hoff : (store.NewListOptions fs).PageOffset = "2")
    (hs : (s.List lib rs fs).sent = [r])
    (hq : ∀ resourceApi u, s.api.GetResourceApi rs.ItemType = Except.ok resourceApi →
      lib.urlParse (resourceApi.List (store.NewListOptions fs).Mesh) = Except.ok u →
      u.RawQuery = "") :
    r.URL.RawQuery = "offset=2&size=1" := by
  obtain ⟨resourceApi, req, hapi, hreq, rfl⟩ := List_sent s lib rs _ r hs
  obtain ⟨hu, -, -, -⟩ := NewRequest_ok lib _ _ _ req hreq
  have hraw := hq resourceApi req.URL hapi hu
  have henc : url.Values.Encode [("offset", ["2"]), ("size", [toString (1 : Int)])]
      = "offset=2&size=1" := by decide
  have hne : ("offset" == "size") = false := by decide
  generalize store.NewListOptions fs = opts at hsz hoff ⊢
  simp [acceptJSON, withListQuery, listQuery, url.URL.Query, hraw, hsz, hoff,
    url.Values.Add, hne, henc]

/-- C17, amended, at the inputs of the test `List() should list known resources using
pagination`: the request for `/meshes/demo/traffic-routes` carries the raw query
`offset=2&size=1`. -/
theorem List_raw_query_sorted_witness :
    ((setupStore "").List testLib { ItemType := "SampleTrafficRoute", Items := [] }
        [store.ListByMesh "demo", store.ListByPage 1 "2"]).sent
      = [{ Method := "GET", URL := ⟨"/meshes/demo/traffic-routes", "offset=2&size=1"⟩,
           Header := [("Accept", ["application/json"])], Body := none }] ∧
    (⟨"/meshes/demo/traffic-routes", "offset=2&size=1"⟩ : url.URL).RawQuery
      = "offset=2&size=1" := by
  have hs : ((setupStore "").List testLib { ItemType := "SampleTrafficRoute", Items := [] }
        [store.ListByMesh "demo", store.ListByPage 1 "2"]).sent
      = [{ Method := "GET", URL := ⟨"/meshes/demo/traffic-routes", "offset=2&size=1"⟩,
           Header := [("Accept", ["application/json"])], Body := none }] := by decide
  refine ⟨hs, ?_⟩
  refine List_raw_query_sorted (setupStore "") testLib
    { ItemType := "SampleTrafficRoute", Items := [] }
    [store.ListByMesh "demo", store.ListByPage 1 "2"] _ rfl rfl hs ?_
  intro resourceApi u hapi hu
  have hapi2 : (setupStore "").api.GetResourceApi "SampleTrafficRoute"
      = Except.ok (rest.NewResourceApi "SampleTrafficRoute" "traffic-routes") := rfl
  have hra : resourceApi = rest.NewResourceApi "SampleTrafficRoute" "traffic-routes" := by
    have h := hapi.symm.trans hapi2
    simpa using h
  subst hra
  have hu2 : testLib.urlParse ((rest.NewResourceApi "SampleTrafficRoute" "traffic-routes").List
      (store.NewListOptions [store.ListByMesh "demo", store.ListByPage 1 "2"]).Mesh)
      = Except.ok ⟨"/meshes/demo/traffic-routes", ""⟩ := rfl
  have h := hu.symm.trans hu2
  simp only [Except.ok.injEq] at h
  rw [h]

end Frame

end Kuma
